import Mathlib

/-!
Verification development for the `system_info_utils` system-info reader
(`source/system_info_reader.cpp`, `source/system_info_reader.h`,
`source/definitions.h`).

The JSON library (nlohmann::json) is an external collaborator; it is modelled
by the inductive `Json` below together with the accessor/conversion behaviour
the reader relies on (`find`, element iteration, `get<T>` conversions).
Floating-point JSON numbers are outside the scope of this model.  A conversion
that would throw an nlohmann `type_error` is modelled as `none`; the reader's
top-level try/catch turns any such escaped exception into a `false` return
(with the output record in an intermediate, unspecified state, which no
theorem below depends on).

All fixed-width C++ integers are modelled as `Nat` with explicit `% 2 ^ w`
reductions at the conversion/assignment points where the C++ code truncates.
-/

set_option maxHeartbeats 1000000

namespace system_info_utils

/-- Model of an nlohmann JSON value (floating-point numbers excluded).
`unum` is a number stored as `number_unsigned` (non-negative literals),
`inum` one stored as `number_integer` (negative literals). -/
inductive Json where
  | null : Json
  | jbool : Bool → Json
  | unum : Nat → Json
  | inum : Int → Json
  | jstr : String → Json
  | arr : List Json → Json
  | obj : List (String × Json) → Json
deriving Repr, Inhabited

/-- Association-list lookup used to model `json::find` on an object. -/
def lookupKey : List (String × Json) → String → Option Json
  | [], _ => none
  | (k, v) :: rest, name => if k = name then some v else lookupKey rest name

/-- Model of `parent.find(name)` / `parent.contains(name)` followed by
`parent[name]`: yields the named child of an object, `none` otherwise. -/
def Json.find : Json → String → Option Json
  | .obj fields, name => lookupKey fields name
  | _, _ => none

/-- Model of `DoesNodeExist` from the anonymous namespace of
`system_info_reader.cpp`. -/
def DoesNodeExist (parent : Json) (name : String) : Bool :=
  (parent.find name).isSome

/-- Model of `json::is_object`. -/
def Json.isObject : Json → Bool
  | .obj _ => true
  | _ => false

/-- Model of `json::is_array`. -/
def Json.isArray : Json → Bool
  | .arr _ => true
  | _ => false

/-- Model of `json::is_number_unsigned`. -/
def Json.isNumberUnsigned : Json → Bool
  | .unum _ => true
  | _ => false

/-- Model of range-based iteration over the values of a node
(`begin()`/`end()`): arrays yield their elements, objects their mapped
values, `null` is an empty range, and any other scalar is a one-element
range holding itself. -/
def Json.iterVals : Json → List Json
  | .arr xs => xs
  | .obj fields => fields.map (·.2)
  | .null => []
  | v => [v]

/-- Model of `get<uint32_t>` (via nlohmann's arithmetic `from_json`):
unsigned and signed numbers and booleans convert with a `static_cast`
truncation to 32 bits; any other type throws (`none`). -/
def Json.asU32 : Json → Option Nat
  | .unum n => some (n % 2 ^ 32)
  | .inum i => some ((i % (2 ^ 32 : Int)).toNat)
  | .jbool b => some (if b then 1 else 0)
  | _ => none

/-- Model of `get<uint64_t>` (also used for `unsigned long`). -/
def Json.asU64 : Json → Option Nat
  | .unum n => some (n % 2 ^ 64)
  | .inum i => some ((i % (2 ^ 64 : Int)).toNat)
  | .jbool b => some (if b then 1 else 0)
  | _ => none

/-- Model of `get<bool>`: strict, only a boolean converts. -/
def Json.asBool : Json → Option Bool
  | .jbool b => some b
  | _ => none

/-- Model of `get<std::string>`: strict, only a string converts. -/
def Json.asStr : Json → Option String
  | .jstr s => some s
  | _ => none

/-- Model of the `Get<uint32_t>` helper of `system_info_reader.cpp`:
fallback when the child is absent, converted child otherwise
(`none` models a conversion exception). -/
def getU32 (parent : Json) (name : String) (fallback : Nat) : Option Nat :=
  match parent.find name with
  | some v => v.asU32
  | none => some fallback

/-- Model of the `Get<uint64_t>` helper. -/
def getU64 (parent : Json) (name : String) (fallback : Nat) : Option Nat :=
  match parent.find name with
  | some v => v.asU64
  | none => some fallback

/-- Model of the `Get<bool>` helper. -/
def getBool (parent : Json) (name : String) (fallback : Bool) : Option Bool :=
  match parent.find name with
  | some v => v.asBool
  | none => some fallback

/-- Model of the `Get<std::string>` helper. -/
def getStr (parent : Json) (name : String) (fallback : String) : Option String :=
  match parent.find name with
  | some v => v.asStr
  | none => some fallback

/- JSON node-name constants from `source/definitions.h`. -/

def kNodeStringDriver : String := "driver"
def kNodeStringSystem : String := "system"
def kNodeStringName : String := "name"
def kNodeStringDescription : String := "description"
def kNodeStringVersion : String := "version"
def kNodeStringDriverPackagingVersion : String := "packagingVersion"
def kNodeStringDriverSoftwareVersion : String := "softwareVersion"
def kNodeStringOs : String := "os"
def kNodeStringVirtualization : String := "virtualization"
def kNodeStringType : String := "type"
def kNodeStringHostName : String := "hostname"
def kNodeStringMemory : String := "memory"
def kNodeStringMemoryPhysical : String := "physical"
def kNodeStringMemorySwap : String := "swap"
def kNodeStringCpus : String := "cpus"
def kNodeStringProcesses : String := "processes"
def kNodeStringProcessId : String := "processId"
def kNodeStringPath : String := "path"
def kNodeStringArchitecture : String := "architecture"
def kNodeStringCpuVendorId : String := "vendorId"
def kNodeStringCpuTimeClockFreq : String := "cpuTimeClockFreq"
def kNodeStringCpuPhysicalCoreCount : String := "numPhysicalCores"
def kNodeStringCpuLogicalCoreCount : String := "numLogicalCores"
def kNodeStringSpeed : String := "speed"
def kNodeStringCpuId : String := "cpuId"
def kNodeStringCpuDeviceId : String := "deviceId"
def kNodeStringGpus : String := "gpus"
def kNodeStringPci : String := "pci"
def kNodeStringPciBus : String := "bus"
def kNodeStringDevice : String := "device"
def kNodeStringPciFunction : String := "function"
def kNodeStringAsic : String := "asic"
def kNodeStringAsicGpuIndex : String := "gpuIndex"
def kNodeStringAsicGpuCounterFrequency : String := "gpuCounterFreq"
def kNodeStringAsicNumSe : String := "numShaderEngines"
def kNodeStringAsicNumSaPerSe : String := "numShaderArraysPerEngine"
def kNodeStringAsicCuMask : String := "cuMask"
def kNodeStringAsicNumCus : String := "numCus"
def kNodeStringAsicEngineClockSpeed : String := "engineClockHz"
def kNodeStringMin : String := "min"
def kNodeStringMax : String := "max"
def kNodeStringAsicIds : String := "ids"
def kNodeStringAsicGfxEngine : String := "gfxEngine"
def kNodeStringAsicFamily : String := "family"
def kNodeStringAsicERev : String := "eRev"
def kNodeStringAsicRevision : String := "revision"
def kNodeStringAsicSubsystem : String := "subsystem"
def kNodeStringAsicVendor : String := "vendor"
def kNodeStringAsicLuid : String := "luid"
def kNodeStringMemoryOpsPerClock : String := "memOpsPerClock"
def kNodeStringMemoryBusBitWidth : String := "busBitWidth"
def kNodeStringMemoryBandwith : String := "bandwidthBytesPerSec"
def kNodeStringMemoryClockSpeed : String := "memClockHz"
def kNodeStringHeaps : String := "heaps"
def kNodeStringPhysicalAddress : String := "physicalAddress"
def kNodeStringSize : String := "size"
def kNodeStringExcludedVaRanges : String := "excludedVaRanges"
def kNodeStringBase : String := "base"
def kNodeStringBigSw : String := "bigSw"
def kNodeStringMajor : String := "major"
def kNodeStringMinor : String := "minor"
def kNodeStringPatch : String := "patch"
def kNodeStringBuild : String := "build"
def kNodeStringMisc : String := "misc"
def kNodeStringConfig : String := "config"
def kNodeStringDrm : String := "drm"
def kNodeStringIsClosedSource : String := "isClosedSource"
def kNodeStringEtwSupport : String := "etwSupport"
def kNodeStringSupported : String := "isSupported"
def kNodeStringEtwRegistryOrUserGroup : String := "needsRegistryOrUserGroup"
def kNodeStringHasPermission : String := "hasPermission"
def kNodeStringStatusCode : String := "statusCode"
def kNodeStringPowerDpmWritable : String := "powerDpmWritable"
def kNodeStringDevDriver : String := "devdriver"
def kNodeStringTag : String := "tag"
def kNodeStringLinux : String := "linux"
def kNodeStringWindows : String := "windows"

/-- RDF chunk constants from `source/definitions.h`. -/
def kSystemInfoChunkVersion : Nat := 1

/-- Maximum supported chunk version (`kSystemInfoChunkVersionMax`). -/
def kSystemInfoChunkVersionMax : Nat := kSystemInfoChunkVersion

/- Output record structures, from `source/system_info_reader.h`. -/

/-- `Version` structure. -/
structure Version where
  major : Nat
  minor : Nat
  patch : Nat
  build : Nat
deriving Repr, DecidableEq

/-- `DevDriverInfo` structure. -/
structure DevDriverInfo where
  major_version : Nat
  tag : String
deriving Repr, DecidableEq

/-- `OsMemoryInfo` structure. -/
structure OsMemoryInfo where
  physical : Nat
  swap : Nat
  type : String
deriving Repr, DecidableEq

/-- `EtwSupportInfo` structure. -/
structure EtwSupportInfo where
  is_supported : Bool
  has_permission : Bool
  status_code : Nat
  needs_rgp_registry_or_usergroup : Bool
deriving Repr, DecidableEq

/-- `ConfigInfo` structure. -/
structure ConfigInfo where
  power_dpm_writable : Bool
  drm_major_version : Nat
  drm_minor_version : Nat
  etw_support_info : EtwSupportInfo
deriving Repr, DecidableEq

/-- `OsInfo` structure. -/
structure OsInfo where
  name : String
  desc : String
  hostname : String
  memory : OsMemoryInfo
  config : ConfigInfo
deriving Repr, DecidableEq

/-- `CpuInfo` structure. -/
structure CpuInfo where
  name : String
  cpu_id : String
  device_id : String
  architecture : String
  vendor_id : String
  virtualization : String
  num_physical_cores : Nat
  num_logical_cores : Nat
  max_clock_speed : Nat
  timestamp_clock_frequency : Nat
deriving Repr, DecidableEq

/-- `PciInfo` structure (the `id` member assigned by `ProcessGpuPciNode`
is included alongside bus/device/function). -/
structure PciInfo where
  id : Nat
  bus : Nat
  device : Nat
  func : Nat
deriving Repr, DecidableEq

/-- `ClockInfo` structure. -/
structure ClockInfo where
  min : Nat
  max : Nat
deriving Repr, DecidableEq

/-- `IdInfo` structure; the 8-byte `luid` array is a `List Nat` of length 8
whose entries are byte values. -/
structure IdInfo where
  gfx_engine : Nat
  family : Nat
  e_rev : Nat
  revision : Nat
  device : Nat
  subsystem : Nat
  vendor : Nat
  luid : List Nat
deriving Repr, DecidableEq

/-- `AsicInfo` structure. -/
structure AsicInfo where
  gpu_index : Nat
  gpu_counter_freq : Nat
  engine_clock_hz : ClockInfo
  num_shader_engines : Nat
  num_shader_arrays_per_engine : Nat
  cu_mask : List (List Nat)
  num_cus : Nat
  id_info : IdInfo
deriving Repr, DecidableEq

/-- `HeapInfo` structure. -/
structure HeapInfo where
  heap_type : String
  phys_addr : Nat
  size : Nat
deriving Repr, DecidableEq

/-- `ExcludedRangeInfo` structure. -/
structure ExcludedRangeInfo where
  base : Nat
  size : Nat
deriving Repr, DecidableEq

/-- `MemoryInfo` structure. -/
structure MemoryInfo where
  type : String
  mem_ops_per_clock : Nat
  bus_bit_width : Nat
  bandwidth : Nat
  mem_clock_hz : ClockInfo
  heaps : List HeapInfo
  excluded_va_ranges : List ExcludedRangeInfo
deriving Repr, DecidableEq

/-- `SoftwareVersion` structure. -/
structure SoftwareVersion where
  major : Nat
  minor : Nat
  misc : Nat
deriving Repr, DecidableEq

/-- `GpuInfo` structure. -/
structure GpuInfo where
  name : String
  pci : PciInfo
  asic : AsicInfo
  memory : MemoryInfo
  big_sw : SoftwareVersion
deriving Repr, DecidableEq

/-- `Process` structure. -/
structure Process where
  name : String
  path : String
  id : Nat
deriving Repr, DecidableEq

/-- `DriverInfo` structure. -/
structure DriverInfo where
  packaging_version_major : Nat
  packaging_version_minor : Nat
  name : String
  description : String
  packaging_version : String
  software_version : String
  is_closed_source : Bool
deriving Repr, DecidableEq

/-- `SystemInfo` structure. -/
structure SystemInfo where
  version : Version
  driver : DriverInfo
  devdriver : DevDriverInfo
  os : OsInfo
  cpus : List CpuInfo
  gpus : List GpuInfo
  processes : List Process
deriving Repr, DecidableEq

/- Zero/empty value-initialised records (`T x = {}` in C++). -/

/-- Zero-initialised `Version`. -/
def defaultVersion : Version := ⟨0, 0, 0, 0⟩

/-- Zero-initialised `DriverInfo`. -/
def defaultDriverInfo : DriverInfo := ⟨0, 0, "", "", "", "", false⟩

/-- Zero-initialised `DevDriverInfo`. -/
def defaultDevDriverInfo : DevDriverInfo := ⟨0, ""⟩

/-- Zero-initialised `OsInfo`. -/
def defaultOsInfo : OsInfo := ⟨"", "", "", ⟨0, 0, ""⟩, ⟨false, 0, 0, ⟨false, false, 0, false⟩⟩⟩

/-- Zero-initialised `CpuInfo` (`CpuInfo cpu = {}`). -/
def defaultCpuInfo : CpuInfo := ⟨"", "", "", "", "", "", 0, 0, 0, 0⟩

/-- Zero-initialised `GpuInfo` (`GpuInfo gpu = {}`). -/
def defaultGpuInfo : GpuInfo :=
  ⟨"", ⟨0, 0, 0, 0⟩, ⟨0, 0, ⟨0, 0⟩, 0, 0, [], 0, ⟨0, 0, 0, 0, 0, 0, 0, List.replicate 8 0⟩⟩,
    ⟨"", 0, 0, 0, ⟨0, 0⟩, [], []⟩, ⟨0, 0, 0⟩⟩

/-- Zero-initialised `SystemInfo`. -/
def defaultSystemInfo : SystemInfo :=
  ⟨defaultVersion, defaultDriverInfo, defaultDevDriverInfo, defaultOsInfo, [], [], []⟩

/- C-string / std::string helpers used by the reader. -/

/-- The decimal digit characters, as tested by
`find_first_not_of("0123456789", ...)` and by `atoi`/`strtol`. -/
def isDigitChar (c : Char) : Bool :=
  48 ≤ c.toNat && c.toNat ≤ 57

/-- Whitespace skipped by `atoi`/`strtol` (C `isspace` in the "C" locale). -/
def isSpaceChar (c : Char) : Bool :=
  c.toNat == 32 || (9 ≤ c.toNat && c.toNat ≤ 13)

/-- Hexadecimal digit test for `strtol(..., 16)`. -/
def isHexDigitChar (c : Char) : Bool :=
  isDigitChar c || (97 ≤ c.toNat && c.toNat ≤ 102) || (65 ≤ c.toNat && c.toNat ≤ 70)

/-- Numeric value of a hexadecimal digit character. -/
def hexDigitVal (c : Char) : Nat :=
  if isDigitChar c then c.toNat - 48
  else if 97 ≤ c.toNat then c.toNat - 87
  else c.toNat - 55

/-- Decimal value of a digit run. -/
def digitsVal (cs : List Char) : Nat :=
  cs.foldl (fun acc c => 10 * acc + (c.toNat - 48)) 0

/-- Hexadecimal value of a hex-digit run. -/
def hexVal (cs : List Char) : Nat :=
  cs.foldl (fun acc c => 16 * acc + hexDigitVal c) 0

/-- `atoi` after the initial whitespace skip: optional sign followed by the
longest decimal-digit run.  Exact (unbounded) value; the behaviour of the C
function is undefined beyond the `int` range, and every theorem below stays
inside it. -/
def atoiAfterSpace : List Char → Int
  | [] => 0
  | c :: rest =>
    if c = '-' then -(Int.ofNat (digitsVal (rest.takeWhile isDigitChar)))
    else if c = '+' then Int.ofNat (digitsVal (rest.takeWhile isDigitChar))
    else Int.ofNat (digitsVal ((c :: rest).takeWhile isDigitChar))

/-- Model of C `atoi`. -/
def atoi (s : String) : Int :=
  atoiAfterSpace (s.toList.dropWhile isSpaceChar)

/-- `strtol(s, nullptr, 16)` after the initial whitespace skip: optional
sign, optional `0x`/`0X` prefix, then the longest hex-digit run (an `0x`
prefix not followed by a hex digit leaves the value 0, exactly as the bare
run computation yields here).  Exact value; call sites in the reader pass
at most 2 characters, far inside the `long` range. -/
def strtol16AfterSpaceSign : List Char → Nat
  | '0' :: x :: rest =>
    if (x = 'x' ∨ x = 'X') ∧ (rest.headD ' ' |> isHexDigitChar) then
      hexVal (rest.takeWhile isHexDigitChar)
    else
      hexVal (('0' :: x :: rest).takeWhile isHexDigitChar)
  | cs => hexVal (cs.takeWhile isHexDigitChar)

/-- Model of C `strtol(s, nullptr, 16)`. -/
def strtol16 (s : String) : Int :=
  match s.toList.dropWhile isSpaceChar with
  | '-' :: rest => -(Int.ofNat (strtol16AfterSpaceSign rest))
  | '+' :: rest => Int.ofNat (strtol16AfterSpaceSign rest)
  | cs => Int.ofNat (strtol16AfterSpaceSign cs)

/-- Model of `std::string::substr(pos, count)` (the reader only calls it
with `pos ≤ size()`, where no exception can occur). -/
def substrPos (s : String) (pos count : Nat) : String :=
  ((s.toList.drop pos).take count).asString

/-- Model of `find_first_of(c)`: index of the first occurrence, `none` for
`npos`. -/
def findFirstOf (s : String) (c : Char) : Option Nat :=
  s.toList.findIdx? (· = c)

/-- Model of `find_first_not_of("0123456789", pos)`: first index at or after
`pos` holding a non-digit character, `none` for `npos`. -/
def findFirstNotOfDigits (s : String) (pos : Nat) : Option Nat :=
  match (s.toList.drop pos).findIdx? (fun c => !isDigitChar c) with
  | some k => some (pos + k)
  | none => none

/- The `SystemInfoParserV1` member functions, modelled with explicit state
passing; a `none` result models an nlohmann conversion exception escaping
the member function. -/

/-- `SystemInfoParserV1::ProcessDevDriverNode`. -/
def ProcessDevDriverNode (dev_driver_root : Json) (dev_driver_info : DevDriverInfo) :
    Option DevDriverInfo := do
  let dev_driver_info ←
    match dev_driver_root.find kNodeStringVersion with
    | some version_root => do
      let mj ← getU32 version_root kNodeStringMajor 0
      pure { dev_driver_info with major_version := mj }
    | none => pure dev_driver_info
  let tag ← getStr dev_driver_root kNodeStringTag ""
  pure { dev_driver_info with tag := tag }

/-- `SystemInfoParserV1::ProcessOsMemoryNode`. -/
def ProcessOsMemoryNode (memory_root : Json) (memory_info : OsMemoryInfo) :
    Option OsMemoryInfo := do
  let physical ← getU64 memory_root kNodeStringMemoryPhysical 0
  let swap ← getU64 memory_root kNodeStringMemorySwap 0
  let ty ← getStr memory_root kNodeStringName ""
  pure { memory_info with physical := physical, swap := swap, type := ty }

/-- `SystemInfoParserV1::ProcessEtwNode` (`Get<unsigned long>` followed by
the assignment to the 32-bit `status_code` member truncates to 32 bits). -/
def ProcessEtwNode (etw_root : Json) (etw_info : EtwSupportInfo) :
    Option EtwSupportInfo := do
  let supported ← getBool etw_root kNodeStringSupported false
  let has_permission ← getBool etw_root kNodeStringHasPermission false
  let status ← getU64 etw_root kNodeStringStatusCode 0
  let needs ← getBool etw_root kNodeStringEtwRegistryOrUserGroup false
  pure { etw_info with
    is_supported := supported
    has_permission := has_permission
    status_code := status % 2 ^ 32
    needs_rgp_registry_or_usergroup := needs }

/-- `SystemInfoParserV1::ProcessOsNode`. -/
def ProcessOsNode (os_root : Json) (os_info : OsInfo) : Option OsInfo := do
  let name ← getStr os_root kNodeStringName ""
  let desc ← getStr os_root kNodeStringDescription ""
  let hostname ← getStr os_root kNodeStringHostName ""
  let os_info := { os_info with name := name, desc := desc, hostname := hostname }
  let os_info ←
    match os_root.find kNodeStringMemory with
    | some memory_root => do
      let m ← ProcessOsMemoryNode memory_root os_info.memory
      pure { os_info with memory := m }
    | none => pure os_info
  match os_root.find kNodeStringConfig with
  | some config_root => do
    let os_info ←
      match config_root.find kNodeStringLinux with
      | some linux_root => do
        let dpm ← getBool linux_root kNodeStringPowerDpmWritable false
        let os_info := { os_info with config.power_dpm_writable := dpm }
        match linux_root.find kNodeStringDrm with
        | some drm_root => do
          let dmaj ← getU32 drm_root kNodeStringMajor 0
          let dmin ← getU32 drm_root kNodeStringMinor 0
          pure { os_info with
            config.drm_major_version := dmaj
            config.drm_minor_version := dmin }
        | none => pure os_info
      | none => pure os_info
    match config_root.find kNodeStringWindows with
    | some windows_root =>
      match windows_root.find kNodeStringEtwSupport with
      | some etw_root => do
        let etw ← ProcessEtwNode etw_root os_info.config.etw_support_info
        pure { os_info with config.etw_support_info := etw }
      | none => pure os_info
    | none => pure os_info
  | none => pure os_info

/-- Body of the loop of `SystemInfoParserV1::ProcessCpusNode`, one CPU node. -/
def processOneCpuNode (cpu_node : Json) : Option CpuInfo := do
  let cpu := defaultCpuInfo
  let name ← getStr cpu_node kNodeStringName ""
  let architecture ← getStr cpu_node kNodeStringArchitecture ""
  let cpu_id ← getStr cpu_node kNodeStringCpuId ""
  let device_id ← getStr cpu_node kNodeStringCpuDeviceId ""
  let vendor_id ← getStr cpu_node kNodeStringCpuVendorId ""
  let logical ← getU32 cpu_node kNodeStringCpuLogicalCoreCount 0
  let physical ← getU32 cpu_node kNodeStringCpuPhysicalCoreCount 0
  let cpu := { cpu with
    name := name, architecture := architecture, cpu_id := cpu_id
    device_id := device_id, vendor_id := vendor_id
    num_logical_cores := logical, num_physical_cores := physical }
  let cpu ←
    match cpu_node.find kNodeStringVirtualization with
    | some _ => do
      let v ← getStr cpu_node kNodeStringVirtualization ""
      pure { cpu with virtualization := v }
    | none => pure cpu
  let cpu ←
    match cpu_node.find kNodeStringSpeed with
    | some cpu_speed_node => do
      let mx ← getU32 cpu_speed_node kNodeStringMax 0
      pure { cpu with max_clock_speed := mx }
    | none => pure cpu
  let freq ← getU64 cpu_node kNodeStringCpuTimeClockFreq 0
  pure { cpu with timestamp_clock_frequency := freq }

/-- Iteration of `SystemInfoParserV1::ProcessCpusNode` over the node range. -/
def ProcessCpusNodeAux : List Json → List CpuInfo → Option (List CpuInfo)
  | [], cpus => some cpus
  | cpu_node :: rest, cpus => do
    let cpu ← processOneCpuNode cpu_node
    ProcessCpusNodeAux rest (cpus ++ [cpu])

/-- `SystemInfoParserV1::ProcessCpusNode`: appends one `CpuInfo` per
iterated child node to the supplied vector. -/
def ProcessCpusNode (cpus_root : Json) (cpus : List CpuInfo) : Option (List CpuInfo) :=
  ProcessCpusNodeAux cpus_root.iterVals cpus

/-- `SystemInfoParserV1::ProcessGpuPciNode`. -/
def ProcessGpuPciNode (pci_root : Json) (pci_info : PciInfo) : Option PciInfo := do
  let bus ← getU32 pci_root kNodeStringPciBus 0
  let device ← getU32 pci_root kNodeStringDevice 0
  let fn ← getU32 pci_root kNodeStringPciFunction 0
  pure { pci_info with id := 0, bus := bus, device := device, func := fn }

/-- Inner loop of `SystemInfoParserV1::ProcessCuMaskNode`: pushes each
unsigned element onto the row; a non-`is_number_unsigned` element aborts
(modelling `cu_mask.clear(); return`). -/
def cuMaskRowAux : List Json → List Nat → Option (List Nat)
  | [], row => some row
  | item :: rest, row =>
    match item with
    | .unum n => cuMaskRowAux rest (row ++ [n % 2 ^ 32])
    | _ => none

/-- Outer loop of `SystemInfoParserV1::ProcessCuMaskNode`: a non-array row,
or a row aborted by a non-unsigned element, clears the whole mask. -/
def ProcessCuMaskNodeAux : List Json → List (List Nat) → List (List Nat)
  | [], cu_mask => cu_mask
  | shader_array_list :: rest, cu_mask =>
    match shader_array_list with
    | .arr items =>
      match cuMaskRowAux items [] with
      | some row => ProcessCuMaskNodeAux rest (cu_mask ++ [row])
      | none => []
    | _ => []

/-- `SystemInfoParserV1::ProcessCuMaskNode`: takes and returns the
`asicInfo.cu_mask` field (a non-array root returns it untouched). -/
def ProcessCuMaskNode (cu_mask_root : Json) (cu_mask : List (List Nat)) :
    List (List Nat) :=
  match cu_mask_root with
  | .arr rows => ProcessCuMaskNodeAux rows cu_mask
  | _ => cu_mask

/-- `SystemInfoParserV1::ProcessClockInfoNode`. -/
def ProcessClockInfoNode (clock_hz_root : Json) (clock_info : ClockInfo) :
    Option ClockInfo := do
  let mn ← getU64 clock_hz_root kNodeStringMin 0
  let mx ← getU64 clock_hz_root kNodeStringMax 0
  pure { clock_info with min := mn, max := mx }

/-- The hex-LUID write loop of `SystemInfoParserV1::ProcessAsicIdInfoNode`
(`for (i = 0; i < luid_str.length(); i += 2)`), writing
`static_cast<uint8_t>(strtol(luid_str.substr(i, 2), nullptr, 16))` at
index `i / 2`.  `List.set` past position 7 is a no-op here, whereas the
C++ `uint8_t luid[8]` write is out of bounds; this model is faithful for
strings of length at most 16 (see the safety claim about the write
indices). -/
def luidLoop (cs : List Char) : Nat → Nat → List Nat → List Nat
  | fuel + 1, i, luid =>
    if i < cs.length then
      luidLoop cs fuel (i + 2)
        (luid.set (i / 2) (((strtol16 ((cs.drop i).take 2).asString) % (256 : Int)).toNat))
    else luid
  | 0, _, luid => luid

/-- The sequence of `luid` array indices written by the hex-LUID loop, for
an input string of the given length (index trace of `luidLoop`). -/
def luidIndexLoop (len : Nat) (i : Nat) : List Nat :=
  if i < len then i / 2 :: luidIndexLoop len (i + 2) else []
termination_by len - i
decreasing_by simp_wf; omega

/-- The set of `luid[...]` indices the hex-LUID loop writes for an input
string of length `len`. -/
def luidWriteIndices (len : Nat) : List Nat :=
  luidIndexLoop len 0

/-- The LUID byte array produced from the `"luid"` string: `memset` to
zero, then the write loop (the fuel argument `s.toList.length` bounds the
iteration count of the stride-2 loop, which never exceeds it). -/
def luidFromString (s : String) : List Nat :=
  luidLoop s.toList s.toList.length 0 (List.replicate 8 0)

/-- `SystemInfoParserV1::ProcessAsicIdInfoNode`. -/
def ProcessAsicIdInfoNode (asic_id_info_root : Json) (asic_id_info : IdInfo) :
    Option IdInfo := do
  let gfx_engine ← getU32 asic_id_info_root kNodeStringAsicGfxEngine 0
  let family ← getU32 asic_id_info_root kNodeStringAsicFamily 0
  let e_rev ← getU32 asic_id_info_root kNodeStringAsicERev 0
  let revision ← getU32 asic_id_info_root kNodeStringAsicRevision 0
  let device ← getU32 asic_id_info_root kNodeStringDevice 0
  let subsystem ← getU32 asic_id_info_root kNodeStringAsicSubsystem 0
  let vendor ← getU32 asic_id_info_root kNodeStringAsicVendor 0
  let luid_str ← getStr asic_id_info_root kNodeStringAsicLuid ""
  pure { asic_id_info with
    gfx_engine := gfx_engine, family := family, e_rev := e_rev
    revision := revision, device := device, subsystem := subsystem
    vendor := vendor, luid := luidFromString luid_str }

/-- `SystemInfoParserV1::ProcessGpuAsicNode` (the `gpuIndex` default is
`static_cast<uint32_t>(-1)`; `gpuCounterFreq` is read with
`Get<uint32_t>` even though the member is 64-bit). -/
def ProcessGpuAsicNode (asic_root : Json) (asic_info : AsicInfo) :
    Option AsicInfo := do
  let gpu_index ← getU32 asic_root kNodeStringAsicGpuIndex (2 ^ 32 - 1)
  let counter_freq ← getU32 asic_root kNodeStringAsicGpuCounterFrequency 0
  let num_se ← getU32 asic_root kNodeStringAsicNumSe 0
  let num_sa ← getU32 asic_root kNodeStringAsicNumSaPerSe 0
  let num_cus ← getU32 asic_root kNodeStringAsicNumCus 0
  let asic_info := { asic_info with
    gpu_index := gpu_index, gpu_counter_freq := counter_freq
    num_shader_engines := num_se, num_shader_arrays_per_engine := num_sa
    num_cus := num_cus }
  let asic_info :=
    match asic_root.find kNodeStringAsicCuMask with
    | some cu_mask_root =>
      { asic_info with cu_mask := ProcessCuMaskNode cu_mask_root asic_info.cu_mask }
    | none => asic_info
  let asic_info ←
    match asic_root.find kNodeStringAsicEngineClockSpeed with
    | some clock_root => do
      let c ← ProcessClockInfoNode clock_root asic_info.engine_clock_hz
      pure { asic_info with engine_clock_hz := c }
    | none => pure asic_info
  match asic_root.find kNodeStringAsicIds with
  | some ids_root => do
    let idi ← ProcessAsicIdInfoNode ids_root asic_info.id_info
    pure { asic_info with id_info := idi }
  | none => pure asic_info

/-- Object iteration with keys (`heap_iter.key()`): only an object (or an
empty range) iterates; a non-empty array or a scalar would make `key()`
throw `invalid_iterator`, modelled as `none`. -/
def iterItemsWithKeys : Json → Option (List (String × Json))
  | .obj fields => some fields
  | .null => some []
  | .arr [] => some []
  | _ => none

/-- Loop of `SystemInfoParserV1::ProcessGpuMemoryHeapsNode`: the heap-type
label is the node key. -/
def ProcessGpuMemoryHeapsNodeAux : List (String × Json) → List HeapInfo →
    Option (List HeapInfo)
  | [], heaps => some heaps
  | (key, current_heap_node) :: rest, heaps => do
    let pa ← getU64 current_heap_node kNodeStringPhysicalAddress 0
    let sz ← getU64 current_heap_node kNodeStringSize 0
    ProcessGpuMemoryHeapsNodeAux rest (heaps ++ [⟨key, pa, sz⟩])

/-- `SystemInfoParserV1::ProcessGpuMemoryHeapsNode`. -/
def ProcessGpuMemoryHeapsNode (heaps_root : Json) (heaps : List HeapInfo) :
    Option (List HeapInfo) := do
  let items ← iterItemsWithKeys heaps_root
  ProcessGpuMemoryHeapsNodeAux items heaps

/-- Loop of `SystemInfoParserV1::ProcessExcludedVaRanges`. -/
def ProcessExcludedVaRangesAux : List Json → List ExcludedRangeInfo →
    Option (List ExcludedRangeInfo)
  | [], ranges => some ranges
  | excluded_range_root :: rest, ranges => do
    let base ← getU64 excluded_range_root kNodeStringBase 0
    let sz ← getU64 excluded_range_root kNodeStringSize 0
    ProcessExcludedVaRangesAux rest (ranges ++ [⟨base, sz⟩])

/-- `SystemInfoParserV1::ProcessExcludedVaRanges`. -/
def ProcessExcludedVaRanges (excluded_ranges_root : Json)
    (excluded_ranges : List ExcludedRangeInfo) : Option (List ExcludedRangeInfo) :=
  ProcessExcludedVaRangesAux excluded_ranges_root.iterVals excluded_ranges

/-- `SystemInfoParserV1::ProcessGpuMemoryNode`. -/
def ProcessGpuMemoryNode (memory_root : Json) (memory_info : MemoryInfo) :
    Option MemoryInfo := do
  let ty ← getStr memory_root kNodeStringType ""
  let ops ← getU32 memory_root kNodeStringMemoryOpsPerClock 0
  let width ← getU32 memory_root kNodeStringMemoryBusBitWidth 0
  let bandwidth ← getU64 memory_root kNodeStringMemoryBandwith 0
  let memory_info := { memory_info with
    type := ty, mem_ops_per_clock := ops, bus_bit_width := width
    bandwidth := bandwidth }
  let memory_info ←
    match memory_root.find kNodeStringMemoryClockSpeed with
    | some clock_root => do
      let c ← ProcessClockInfoNode clock_root memory_info.mem_clock_hz
      pure { memory_info with mem_clock_hz := c }
    | none => pure memory_info
  let memory_info ←
    match memory_root.find kNodeStringHeaps with
    | some heaps_root => do
      let hs ← ProcessGpuMemoryHeapsNode heaps_root memory_info.heaps
      pure { memory_info with heaps := hs }
    | none => pure memory_info
  match memory_root.find kNodeStringExcludedVaRanges with
  | some ranges_root => do
    let rs ← ProcessExcludedVaRanges ranges_root memory_info.excluded_va_ranges
    pure { memory_info with excluded_va_ranges := rs }
  | none => pure memory_info

/-- `SystemInfoParserV1::ProcessSoftwareVersionNode`. -/
def ProcessSoftwareVersionNode (sw_version_root : Json) (version : SoftwareVersion) :
    Option SoftwareVersion := do
  let major ← getU32 sw_version_root kNodeStringMajor 0
  let minor ← getU32 sw_version_root kNodeStringMinor 0
  let misc ← getU32 sw_version_root kNodeStringMisc 0
  pure { version with major := major, minor := minor, misc := misc }

/-- Body of the loop of `SystemInfoParserV1::ProcessGpusNodes`, one GPU
node populated from a fresh `GpuInfo gpu = {}`. -/
def processOneGpuNode (gpu_node : Json) : Option GpuInfo := do
  let gpu := defaultGpuInfo
  let name ← getStr gpu_node kNodeStringName ""
  let gpu := { gpu with name := name }
  let gpu ←
    match gpu_node.find kNodeStringPci with
    | some pci_root => do
      let p ← ProcessGpuPciNode pci_root gpu.pci
      pure { gpu with pci := p }
    | none => pure gpu
  let gpu ←
    match gpu_node.find kNodeStringAsic with
    | some asic_root => do
      let a ← ProcessGpuAsicNode asic_root gpu.asic
      pure { gpu with asic := a }
    | none => pure gpu
  let gpu ←
    match gpu_node.find kNodeStringMemory with
    | some memory_root => do
      let m ← ProcessGpuMemoryNode memory_root gpu.memory
      pure { gpu with memory := m }
    | none => pure gpu
  match gpu_node.find kNodeStringBigSw with
  | some big_sw_root => do
    let b ← ProcessSoftwareVersionNode big_sw_root gpu.big_sw
    pure { gpu with big_sw := b }
  | none => pure gpu

/-- Iteration of `SystemInfoParserV1::ProcessGpusNodes`. -/
def ProcessGpusNodesAux : List Json → List GpuInfo → Option (List GpuInfo)
  | [], gpus => some gpus
  | gpu_node :: rest, gpus => do
    let gpu ← processOneGpuNode gpu_node
    ProcessGpusNodesAux rest (gpus ++ [gpu])

/-- `SystemInfoParserV1::ProcessGpusNodes`: appends one `GpuInfo` per
iterated child node to the supplied vector. -/
def ProcessGpusNodes (gpus_root : Json) (gpus : List GpuInfo) : Option (List GpuInfo) :=
  ProcessGpusNodesAux gpus_root.iterVals gpus

/-- The trailing `// Parse major and minor` block of
`SystemInfoParserV1::ProcessDriverNode`, acting on the `DriverInfo` whose
string fields have just been populated (the `int` results of `atoi`
assigned to the `uint32_t` members wrap modulo `2 ^ 32`). -/
def parseDriverPackagingMajorMinor (driver : DriverInfo) : DriverInfo :=
  if driver.packaging_version = "" then driver
  else
    match findFirstOf driver.packaging_version '.' with
    | none => driver
    | some first =>
      let driver := { driver with
        packaging_version_major :=
          ((atoi (substrPos driver.packaging_version 0 first)) % (2 ^ 32 : Int)).toNat }
      let rest := first + 1
      match findFirstNotOfDigits driver.packaging_version rest with
      | none => driver
      | some next =>
        { driver with
          packaging_version_minor :=
            ((atoi (substrPos driver.packaging_version rest (next - rest))) %
              (2 ^ 32 : Int)).toNat }

/-- `SystemInfoParserV1::ProcessDriverNode`: populate the string fields,
then derive the packaging major/minor. -/
def ProcessDriverNode (driver_node : Json) (driver : DriverInfo) :
    Option DriverInfo := do
  let name ← getStr driver_node kNodeStringName ""
  let description ← getStr driver_node kNodeStringDescription ""
  let software_version ← getStr driver_node kNodeStringDriverSoftwareVersion ""
  let packaging_version ← getStr driver_node kNodeStringDriverPackagingVersion ""
  let is_closed_source ← getBool driver_node kNodeStringIsClosedSource false
  pure (parseDriverPackagingMajorMinor { driver with
    name := name, description := description
    software_version := software_version
    packaging_version := packaging_version
    is_closed_source := is_closed_source })

/- The five guarded field blocks of
`SystemInfoParserV1::ProcessSystemValueNode`, as one step each. -/

/-- `if (DoesNodeExist(..., kNodeStringDevDriver)) ProcessDevDriverNode(...)`. -/
def stepDevDriver (system_value_node : Json) (system_info : SystemInfo) :
    Option SystemInfo :=
  match system_value_node.find kNodeStringDevDriver with
  | some n => do
    let d ← ProcessDevDriverNode n system_info.devdriver
    pure { system_info with devdriver := d }
  | none => pure system_info

/-- `if (DoesNodeExist(..., kNodeStringDriver)) ProcessDriverNode(...)`. -/
def stepDriver (system_value_node : Json) (system_info : SystemInfo) :
    Option SystemInfo :=
  match system_value_node.find kNodeStringDriver with
  | some n => do
    let d ← ProcessDriverNode n system_info.driver
    pure { system_info with driver := d }
  | none => pure system_info

/-- `if (DoesNodeExist(..., kNodeStringOs)) ProcessOsNode(...)`. -/
def stepOs (system_value_node : Json) (system_info : SystemInfo) :
    Option SystemInfo :=
  match system_value_node.find kNodeStringOs with
  | some n => do
    let o ← ProcessOsNode n system_info.os
    pure { system_info with os := o }
  | none => pure system_info

/-- `if (DoesNodeExist(..., kNodeStringCpus)) ProcessCpusNode(...)`. -/
def stepCpus (system_value_node : Json) (system_info : SystemInfo) :
    Option SystemInfo :=
  match system_value_node.find kNodeStringCpus with
  | some n => do
    let cs ← ProcessCpusNode n system_info.cpus
    pure { system_info with cpus := cs }
  | none => pure system_info

/-- `if (DoesNodeExist(..., kNodeStringGpus)) ProcessGpusNodes(...)`. -/
def stepGpus (system_value_node : Json) (system_info : SystemInfo) :
    Option SystemInfo :=
  match system_value_node.find kNodeStringGpus with
  | some n => do
    let gs ← ProcessGpusNodes n system_info.gpus
    pure { system_info with gpus := gs }
  | none => pure system_info

/-- `SystemInfoParserV1::ProcessSystemValueNode`. -/
def ProcessSystemValueNodeV1 (system_value_node : Json) (system_info : SystemInfo) :
    Option SystemInfo := do
  let system_info ← stepDevDriver system_value_node system_info
  let system_info ← stepDriver system_value_node system_info
  let system_info ← stepOs system_value_node system_info
  let system_info ← stepCpus system_value_node system_info
  stepGpus system_value_node system_info

/-- Body of the loop of `SystemInfoParserV2::ProcessProcessListNode`. -/
def processOneProcessNode (process_node : Json) : Option Process := do
  let name ← getStr process_node kNodeStringName ""
  let path ← getStr process_node kNodeStringPath ""
  let pid ← getU32 process_node kNodeStringProcessId 0
  pure ⟨name, path, pid⟩

/-- Iteration of `SystemInfoParserV2::ProcessProcessListNode`. -/
def ProcessProcessListNodeAux : List Json → List Process → Option (List Process)
  | [], processes => some processes
  | process_node :: rest, processes => do
    let p ← processOneProcessNode process_node
    ProcessProcessListNodeAux rest (processes ++ [p])

/-- `SystemInfoParserV2::ProcessProcessListNode`. -/
def ProcessProcessListNode (process_list_node : Json) (processes : List Process) :
    Option (List Process) :=
  ProcessProcessListNodeAux process_list_node.iterVals processes

/-- The `if (DoesNodeExist(..., kNodeStringProcesses))` block that
`SystemInfoParserV2::ProcessSystemValueNode` adds after delegating to V1. -/
def stepProcesses (system_value_node : Json) (system_info : SystemInfo) :
    Option SystemInfo :=
  match system_value_node.find kNodeStringProcesses with
  | some n => do
    let ps ← ProcessProcessListNode n system_info.processes
    pure { system_info with processes := ps }
  | none => pure system_info

/-- `SystemInfoParserV2::ProcessSystemValueNode`: V1 first, then the
process list if present. -/
def ProcessSystemValueNodeV2 (system_value_node : Json) (system_info : SystemInfo) :
    Option SystemInfo := do
  let system_info ← ProcessSystemValueNodeV1 system_value_node system_info
  stepProcesses system_value_node system_info

/-- The two concrete parser strategies
(`SystemInfoParserV1` / `SystemInfoParserV2`). -/
inductive SystemInfoParser where
  | v1 : SystemInfoParser
  | v2 : SystemInfoParser
deriving Repr, DecidableEq

/-- `CreateSystemInfoParser`: version 1 and 2 map to their strategies,
anything else to `nullptr` (`none`). -/
def CreateSystemInfoParser : Nat → Option SystemInfoParser
  | 1 => some .v1
  | 2 => some .v2
  | _ => none

/-- Virtual dispatch of `parser->ProcessSystemValueNode(...)`. -/
def runParser : SystemInfoParser → Json → SystemInfo → Option SystemInfo
  | .v1 => ProcessSystemValueNodeV1
  | .v2 => ProcessSystemValueNodeV2

/-- The version-resolution prefix of `ProcessSystemNode`: an object-valued
`"version"` child populates all four parts (defaults 2/0/0/0); otherwise
`version.major` alone is read with default 1. -/
def readVersion (system_node : Json) (version : Version) : Option Version :=
  if (DoesNodeExist system_node kNodeStringVersion) &&
      ((system_node.find kNodeStringVersion).getD .null).isObject then
    match system_node.find kNodeStringVersion with
    | some version_node => do
      let major ← getU32 version_node kNodeStringMajor 2
      let minor ← getU32 version_node kNodeStringMinor 0
      let patch ← getU32 version_node kNodeStringPatch 0
      let build ← getU32 version_node kNodeStringBuild 0
      pure ⟨major, minor, patch, build⟩
    | none => none
  else do
    let major ← getU32 system_node kNodeStringVersion 1
    pure { version with major := major }

/-- `ProcessSystemNode`: resolve the version into the record, create the
parser for `version.major`, then either run it (returning `true`) or
return `false` when no parser exists. -/
def ProcessSystemNode (system_node : Json) (system_info : SystemInfo) :
    Option (Bool × SystemInfo) := do
  let ver ← readVersion system_node system_info.version
  let system_info := { system_info with version := ver }
  match CreateSystemInfoParser system_info.version.major with
  | some parser => do
    let system_info ← runParser parser system_node system_info
    pure (true, system_info)
  | none => pure (false, system_info)

/-- `SystemInfoReader::Parse(const std::string&, SystemInfo&)`.  The
external text parser is represented by its outcome `parsed` (`none` models
`nlohmann::json::parse` throwing, in which case the catch block returns
`false` with the record untouched).  An overall `none` result models a
conversion exception escaping `ProcessSystemNode`: the C++ function then
returns `false` with the record in a partially-updated state that no
theorem below relies on. -/
def SystemInfoReader.Parse (parsed : Option Json) (system_info : SystemInfo) :
    Option (Bool × SystemInfo) :=
  match parsed with
  | none => some (false, system_info)
  | some structure0 =>
    match structure0.find kNodeStringSystem with
    | some system_node => ProcessSystemNode system_node system_info
    | none => ProcessSystemNode structure0 system_info

/- Serialisation (`json::dump()`), needed by the text-to-text overload. -/

/-- Four-digit hex rendering for `\uXXXX` escapes. -/
def hex4 (n : Nat) : String :=
  let digit := fun (k : Nat) =>
    if k < 10 then Char.ofNat (48 + k) else Char.ofNat (87 + k)
  ⟨[digit (n / 4096 % 16), digit (n / 256 % 16), digit (n / 16 % 16), digit (n % 16)]⟩

/-- One JSON string character, escaped as `json::dump` does. -/
def escapeJsonChar (c : Char) : String :=
  if c = '"' then "\\\""
  else if c = '\\' then "\\\\"
  else if c = '\x08' then "\\b"
  else if c = '\x0c' then "\\f"
  else if c = '\n' then "\\n"
  else if c = '\r' then "\\r"
  else if c = '\t' then "\\t"
  else if c.toNat < 32 then "\\u" ++ hex4 c.toNat
  else String.singleton c

/-- JSON string-body escaping. -/
def escapeJsonString (s : String) : String :=
  String.join (s.toList.map escapeJsonChar)

mutual

/-- Model of `json::dump()` (compact form, no indentation). -/
def Json.dump : Json → String
  | .null => "null"
  | .jbool b => if b then "true" else "false"
  | .unum n => toString n
  | .inum i => toString i
  | .jstr s => "\"" ++ escapeJsonString s ++ "\""
  | .arr xs => "[" ++ dumpList xs ++ "]"
  | .obj fields => "\x7b" ++ dumpFields fields ++ "\x7d"

/-- Comma-separated dump of array elements. -/
def Json.dumpList : List Json → String
  | [] => ""
  | [x] => x.dump
  | x :: rest => x.dump ++ "," ++ dumpList rest

/-- Comma-separated dump of object members. -/
def Json.dumpFields : List (String × Json) → String
  | [] => ""
  | [(k, v)] => "\"" ++ escapeJsonString k ++ "\":" ++ v.dump
  | (k, v) :: rest =>
    "\"" ++ escapeJsonString k ++ "\":" ++ v.dump ++ "," ++ dumpFields rest

end

/-- `SystemInfoReader::Parse(const std::string&)` (the envelope-stripping,
text-to-text overload): empty string when the text fails to parse, the
dumped `"system"` subtree when one exists, the original text otherwise. -/
def SystemInfoReader.ParseText (parsed : Option Json) (json : String) : String :=
  match parsed with
  | none => ""
  | some structure0 =>
    match structure0.find kNodeStringSystem with
    | some system_node => system_node.dump
    | none => json

/- Chunk retrieval (`SystemInfoReader::Parse(rdfChunkFile*, SystemInfo&)`). -/

/-- The RDF container contract consumed by chunk retrieval: whether the
`SystemInfo` chunk is present, its stored version, and its payload text
(assumed free of interior NUL bytes, so that the null-terminated buffer
handed to the text decoder is exactly the payload). -/
structure RdfChunkFile where
  containsSystemInfoChunk : Bool
  chunkVersion : Nat
  chunkData : String

/-- The container operations chunk retrieval can perform, in call order. -/
inductive ChunkOp where
  | containsCheck : ChunkOp
  | versionQuery : ChunkOp
  | sizeQuery : ChunkOp
  | readData : ChunkOp
deriving Repr, DecidableEq

/-- `SystemInfoReader::Parse(rdfChunkFile*, SystemInfo&)`, instrumented
with the trace of container operations it performs.  `parse` is the
external text parser used by the forwarded
`Parse(const std::string&, SystemInfo&)` call. -/
def SystemInfoReader.ParseChunkFile (parse : String → Option Json)
    (file : RdfChunkFile) (system_info : SystemInfo) :
    Option (Bool × SystemInfo) × List ChunkOp :=
  if !file.containsSystemInfoChunk then
    (some (false, system_info), [.containsCheck])
  else if kSystemInfoChunkVersionMax < file.chunkVersion then
    (some (false, system_info), [.containsCheck, .versionQuery])
  else
    (SystemInfoReader.Parse (parse file.chunkData) system_info,
      [.containsCheck, .versionQuery, .sizeQuery, .readData])

/- Structural well-formedness of a CU-mask node, as the spec words it:
an array of arrays of unsigned integers. -/

/-- One CU-mask row is structurally valid: an array of unsigned numbers. -/
def cuMaskRowOk : Json → Bool
  | .arr items => items.all Json.isNumberUnsigned
  | _ => false

/-- A CU-mask node is structurally valid: an array of valid rows. -/
def cuMaskNodeOk : Json → Bool
  | .arr rows => rows.all cuMaskRowOk
  | _ => false

lemma cuMaskRowAux_none (items : List Json) (row : List Nat)
    (h : items.all Json.isNumberUnsigned = false) : cuMaskRowAux items row = none := by
  induction items generalizing row with
  | nil => simp at h
  | cons item rest ih =>
    cases item with
    | unum n =>
      rw [List.all_cons] at h
      simp only [Json.isNumberUnsigned, Bool.true_and] at h
      simpa [cuMaskRowAux] using ih _ h
    | null => rfl
    | jbool b => rfl
    | inum i => rfl
    | jstr s => rfl
    | arr xs => rfl
    | obj fs => rfl

lemma ProcessCuMaskNodeAux_violation (rows : List Json) (cu_mask : List (List Nat))
    (h : rows.all cuMaskRowOk = false) : ProcessCuMaskNodeAux rows cu_mask = [] := by
  induction rows generalizing cu_mask with
  | nil => simp at h
  | cons row rest ih =>
    cases row with
    | arr items =>
      simp only [List.all_cons, cuMaskRowOk, Bool.and_eq_false_iff] at h
      rcases h with h | h
      · rw [ProcessCuMaskNodeAux, cuMaskRowAux_none items [] h]
      · rw [ProcessCuMaskNodeAux]
        cases hrow : cuMaskRowAux items [] with
        | none => rfl
        | some r => exact ih _ h
    | null => rfl
    | jbool b => rfl
    | unum n => rfl
    | inum i => rfl
    | jstr s => rfl
    | obj fs => rfl

/-- C4: for every CU-mask input node, on the first structural violation
anywhere (outer node not an array, an outer element not an array, or an
inner value not an unsigned integer) the entire `cu_mask` matrix built so
far is discarded — starting from the empty matrix of the fresh
`AsicInfo` at the only call site, the result is empty; an inner violation
moreover clears the matrix whatever its prior content, so partial rows are
never retained; in particular `[[1,2],[3,"x"]]` yields an empty matrix. -/
theorem C4_cu_mask_discarded_on_violation :
    (∀ root : Json, cuMaskNodeOk root = false → ProcessCuMaskNode root [] = []) ∧
    (∀ (rows : List Json) (cu_mask : List (List Nat)),
      cuMaskNodeOk (.arr rows) = false → ProcessCuMaskNode (.arr rows) cu_mask = []) ∧
    ProcessCuMaskNode
      (.arr [.arr [.unum 1, .unum 2], .arr [.unum 3, .jstr "x"]]) [] = [] := by
  refine ⟨?_, ?_, rfl⟩
  · intro root h
    cases root with
    | arr rows => exact ProcessCuMaskNodeAux_violation rows [] (by simpa [cuMaskNodeOk] using h)
    | null => rfl
    | jbool b => rfl
    | unum n => rfl
    | inum i => rfl
    | jstr s => rfl
    | obj fs => rfl
  · intro rows cu_mask h
    exact ProcessCuMaskNodeAux_violation rows cu_mask (by simpa [cuMaskNodeOk] using h)

/-- C4 witness: the theorem applied to the concrete violating inputs
`"x"` (outer node not an array) and `[[1],[2,"y"]]` (inner violation with
a non-empty prior matrix). -/
theorem C4_cu_mask_discarded_on_violation_witness :
    ProcessCuMaskNode (.jstr "x") [] = [] ∧
    ProcessCuMaskNode (.arr [.arr [.unum 1], .arr [.unum 2, .jstr "y"]]) [[7]] = [] :=
  ⟨C4_cu_mask_discarded_on_violation.1 (.jstr "x") rfl,
   C4_cu_mask_discarded_on_violation.2.1 [.arr [.unum 1], .arr [.unum 2, .jstr "y"]] [[7]] rfl⟩

/-- C6: version resolution is asymmetric in its defaults.  When the
subtree's `"version"` child exists and is itself an object, the four parts
are read from it with defaults `major = 2` and `minor = patch = build = 0`
for missing parts; when the `"version"` child exists as a scalar it is
legacy major-only; when it is absent entirely, `major` defaults to 1. -/
theorem C6_version_resolution_asymmetric_defaults :
    (∀ (system_node version_node : Json) (v0 : Version) (m mi p b : Nat),
      system_node.find kNodeStringVersion = some version_node →
      version_node.isObject = true →
      getU32 version_node kNodeStringMajor 2 = some m →
      getU32 version_node kNodeStringMinor 0 = some mi →
      getU32 version_node kNodeStringPatch 0 = some p →
      getU32 version_node kNodeStringBuild 0 = some b →
      readVersion system_node v0 = some ⟨m, mi, p, b⟩) ∧
    (∀ (system_node version_node : Json) (v0 : Version) (m : Nat),
      system_node.find kNodeStringVersion = some version_node →
      version_node.isObject = false →
      version_node.asU32 = some m →
      readVersion system_node v0 = some { v0 with major := m }) ∧
    (∀ (system_node : Json) (v0 : Version),
      system_node.find kNodeStringVersion = none →
      readVersion system_node v0 = some { v0 with major := 1 }) := by
  refine ⟨?_, ?_, ?_⟩
  · intro system_node version_node v0 m mi p b hfind hobj hm hmi hp hb
    simp [readVersion, DoesNodeExist, hfind, hobj, hm, hmi, hp, hb]
  · intro system_node version_node v0 m hfind hobj hconv
    simp [readVersion, DoesNodeExist, getU32, hfind, hobj, hconv]
  · intro system_node v0 hfind
    simp [readVersion, DoesNodeExist, getU32, hfind]

/-- C6 witness: the theorem applied to the three concrete shapes —
an object version `{"major":2,"minor":5}`, a scalar version `7`, and an
absent version. -/
theorem C6_version_resolution_asymmetric_defaults_witness :
    readVersion (.obj [("version", .obj [("major", .unum 2), ("minor", .unum 5)])])
      defaultVersion = some ⟨2, 5, 0, 0⟩ ∧
    readVersion (.obj [("version", .unum 7)]) defaultVersion =
      some { defaultVersion with major := 7 } ∧
    readVersion (.obj []) defaultVersion = some { defaultVersion with major := 1 } :=
  ⟨C6_version_resolution_asymmetric_defaults.1 _
      (.obj [("major", .unum 2), ("minor", .unum 5)]) defaultVersion 2 5 0 0
      rfl rfl rfl rfl rfl rfl,
   C6_version_resolution_asymmetric_defaults.2.1 _ (.unum 7) defaultVersion 7 rfl rfl rfl,
   C6_version_resolution_asymmetric_defaults.2.2 (.obj []) defaultVersion rfl⟩

/-- C7: the text-to-text decode returns the empty string on parse failure,
the original input text when the parsed document has no top-level
`"system"` field, and the re-serialized `"system"` subtree when one
exists. -/
theorem C7_text_decode_envelope_stripping :
    (∀ json : String, SystemInfoReader.ParseText none json = "") ∧
    (∀ (doc : Json) (json : String), doc.find kNodeStringSystem = none →
      SystemInfoReader.ParseText (some doc) json = json) ∧
    (∀ (doc system_node : Json) (json : String),
      doc.find kNodeStringSystem = some system_node →
      SystemInfoReader.ParseText (some doc) json = system_node.dump) := by
  refine ⟨fun _ => rfl, ?_, ?_⟩
  · intro doc json hfind
    simp [SystemInfoReader.ParseText, hfind]
  · intro doc system_node json hfind
    simp [SystemInfoReader.ParseText, hfind]

/-- C7 witness: the theorem applied to a bare (unenveloped) document and
to an enveloped one. -/
theorem C7_text_decode_envelope_stripping_witness :
    SystemInfoReader.ParseText (some (.obj [("version", .unum 1)]))
      "\x7b \"version\" : 1 \x7d" = "\x7b \"version\" : 1 \x7d" ∧
    SystemInfoReader.ParseText
      (some (.obj [("system", .obj [("version", .unum 1)])])) "ignored" =
      (Json.obj [("version", .unum 1)]).dump :=
  ⟨C7_text_decode_envelope_stripping.2.1 (.obj [("version", .unum 1)])
      "\x7b \"version\" : 1 \x7d" rfl,
   C7_text_decode_envelope_stripping.2.2 _ (.obj [("version", .unum 1)]) "ignored" rfl⟩

/-- C8: chunk retrieval fails immediately when the chunk is absent (only
the presence check runs — no read, no decode), fails after only the
version query when the stored chunk version exceeds
`kSystemInfoChunkVersionMax` (no byte read attempted), and otherwise reads
the bytes and forwards them to the text decoder, propagating its success
flag. -/
theorem C8_chunk_retrieval_guards :
    (∀ (parse : String → Option Json) (file : RdfChunkFile) (si : SystemInfo),
      file.containsSystemInfoChunk = false →
      SystemInfoReader.ParseChunkFile parse file si =
        (some (false, si), [.containsCheck]) ∧
      ChunkOp.readData ∉ [ChunkOp.containsCheck]) ∧
    (∀ (parse : String → Option Json) (file : RdfChunkFile) (si : SystemInfo),
      file.containsSystemInfoChunk = true →
      kSystemInfoChunkVersionMax < file.chunkVersion →
      SystemInfoReader.ParseChunkFile parse file si =
        (some (false, si), [.containsCheck, .versionQuery]) ∧
      ChunkOp.readData ∉ [ChunkOp.containsCheck, ChunkOp.versionQuery]) ∧
    (∀ (parse : String → Option Json) (file : RdfChunkFile) (si : SystemInfo),
      file.containsSystemInfoChunk = true →
      file.chunkVersion ≤ kSystemInfoChunkVersionMax →
      SystemInfoReader.ParseChunkFile parse file si =
        (SystemInfoReader.Parse (parse file.chunkData) si,
          [.containsCheck, .versionQuery, .sizeQuery, .readData])) := by
  refine ⟨?_, ?_, ?_⟩
  · intro parse file si h
    exact ⟨by simp [SystemInfoReader.ParseChunkFile, h], by decide⟩
  · intro parse file si h hv
    exact ⟨by simp [SystemInfoReader.ParseChunkFile, h, hv], by decide⟩
  · intro parse file si h hv
    simp [SystemInfoReader.ParseChunkFile, h, Nat.not_lt.mpr hv]

/-- C8 witness: the theorem applied to concrete container states — chunk
absent, chunk stored with version 2 (above the supported maximum 1), and
chunk present at version 1 with an unparseable payload. -/
theorem C8_chunk_retrieval_guards_witness :
    (SystemInfoReader.ParseChunkFile (fun _ => none) ⟨false, 0, ""⟩ defaultSystemInfo =
      (some (false, defaultSystemInfo), [.containsCheck])) ∧
    (SystemInfoReader.ParseChunkFile (fun _ => none) ⟨true, 2, "x"⟩ defaultSystemInfo =
      (some (false, defaultSystemInfo), [.containsCheck, .versionQuery])) ∧
    (SystemInfoReader.ParseChunkFile (fun _ => none) ⟨true, 1, "x"⟩ defaultSystemInfo =
      (SystemInfoReader.Parse none defaultSystemInfo,
        [.containsCheck, .versionQuery, .sizeQuery, .readData])) :=
  ⟨(C8_chunk_retrieval_guards.1 (fun _ => none) ⟨false, 0, ""⟩ defaultSystemInfo rfl).1,
   (C8_chunk_retrieval_guards.2.1 (fun _ => none) ⟨true, 2, "x"⟩ defaultSystemInfo rfl
      (by norm_num [kSystemInfoChunkVersionMax, kSystemInfoChunkVersion])).1,
   C8_chunk_retrieval_guards.2.2 (fun _ => none) ⟨true, 1, "x"⟩ defaultSystemInfo rfl
      (by norm_num [kSystemInfoChunkVersionMax, kSystemInfoChunkVersion])⟩

lemma mem_luidIndexLoop (len : Nat) :
    ∀ (fuel i : Nat), len - i ≤ fuel →
      ∀ j, (j ∈ luidIndexLoop len i ↔ ∃ k, j = (i + 2 * k) / 2 ∧ i + 2 * k < len) := by
  intro fuel
  induction fuel with
  | zero =>
    intro i hfuel j
    have hlen : ¬ i < len := by omega
    rw [luidIndexLoop, if_neg hlen]
    simp only [List.not_mem_nil, false_iff, not_exists, not_and]
    intro k hk
    omega
  | succ n ih =>
    intro i hfuel j
    by_cases hlen : i < len
    · rw [luidIndexLoop, if_pos hlen]
      rw [List.mem_cons, ih (i + 2) (by omega) j]
      constructor
      · rintro (rfl | ⟨k, rfl, hk⟩)
        · exact ⟨0, by omega, by omega⟩
        · exact ⟨k + 1, by ring_nf, by omega⟩
      · rintro ⟨k, rfl, hk⟩
        cases k with
        | zero => left; omega
        | succ m => right; exact ⟨m, by ring_nf, by omega⟩
    · rw [luidIndexLoop, if_neg hlen]
      simp only [List.not_mem_nil, false_iff, not_exists, not_and]
      intro k hk
      omega

/-- C10: the hex-LUID loop writes at index `i / 2` for every even `i`
strictly below the input length; for every length of 17 or more some write
index reaches 8 or beyond (past the 8-byte `luid` array), and all write
indices stay within the array bound exactly when the string length is at
most 16. -/
theorem C10_luid_write_indices_bound :
    (∀ len : Nat, 17 ≤ len → ∃ j ∈ luidWriteIndices len, 8 ≤ j) ∧
    (∀ len : Nat, (∀ j ∈ luidWriteIndices len, j < 8) ↔ len ≤ 16) := by
  have hmem : ∀ len j, j ∈ luidWriteIndices len ↔ ∃ k, j = (2 * k) / 2 ∧ 2 * k < len := by
    intro len j
    simpa using mem_luidIndexLoop len (len - 0) 0 (by omega) j
  constructor
  · intro len hlen
    refine ⟨8, ?_, le_refl 8⟩
    rw [hmem]
    exact ⟨8, by omega, by omega⟩
  · intro len
    constructor
    · intro hall
      by_contra hgt
      have h8 : (8 : Nat) ∈ luidWriteIndices len := by
        rw [hmem]; exact ⟨8, by omega, by omega⟩
      exact absurd (hall 8 h8) (by omega)
    · intro hle j hj
      rw [hmem] at hj
      obtain ⟨k, rfl, hk⟩ := hj
      omega

/-- C10 witness: the theorem applied at lengths 17 (an out-of-bounds write
index exists) and 16 (all write indices in bounds). -/
theorem C10_luid_write_indices_bound_witness :
    (∃ j ∈ luidWriteIndices 17, 8 ≤ j) ∧ (∀ j ∈ luidWriteIndices 16, j < 8) :=
  ⟨C10_luid_write_indices_bound.1 17 (by norm_num),
   (C10_luid_write_indices_bound.2 16).mpr (by norm_num)⟩

lemma CreateSystemInfoParser_eq_none (n : Nat) (h1 : n ≠ 1) (h2 : n ≠ 2) :
    CreateSystemInfoParser n = none := by
  match n with
  | 0 => rfl
  | 1 => exact absurd rfl h1
  | 2 => exact absurd rfl h2
  | (m + 3) => rfl

/-- C3 counterexample: decoding `{"version": 99}` (resolved major version
99, neither 1 nor 2) returns `success = false` but the output record is
NOT left equal to the default record — `version.major` has been set to 99
before the strategy lookup fails. -/
theorem C3_counterexample :
    SystemInfoReader.Parse (some (.obj [("version", .unum 99)])) defaultSystemInfo =
      some (false, { defaultSystemInfo with version := ⟨99, 0, 0, 0⟩ }) ∧
    ({ defaultSystemInfo with version := ⟨99, 0, 0, 0⟩ } : SystemInfo) ≠
      defaultSystemInfo := by
  exact ⟨by rfl, by decide⟩

/-- C3 amended: for every located subtree whose version resolution
succeeds with a major version that is neither 1 nor 2, decoding returns
`success = false` and the output record equals the input record except for
the version field, which holds the resolved version. -/
theorem C3_amended_unknown_version_fails :
    (∀ (system_node : Json) (si : SystemInfo) (v : Version),
      readVersion system_node si.version = some v →
      v.major ≠ 1 → v.major ≠ 2 →
      ProcessSystemNode system_node si = some (false, { si with version := v })) ∧
    (∀ (doc system_node : Json) (si : SystemInfo) (v : Version),
      (doc.find kNodeStringSystem = some system_node ∨
        (doc.find kNodeStringSystem = none ∧ system_node = doc)) →
      readVersion system_node si.version = some v →
      v.major ≠ 1 → v.major ≠ 2 →
      SystemInfoReader.Parse (some doc) si = some (false, { si with version := v })) := by
  have hmain : ∀ (system_node : Json) (si : SystemInfo) (v : Version),
      readVersion system_node si.version = some v →
      v.major ≠ 1 → v.major ≠ 2 →
      ProcessSystemNode system_node si = some (false, { si with version := v }) := by
    intro system_node si v hv h1 h2
    simp [ProcessSystemNode, hv, CreateSystemInfoParser_eq_none v.major h1 h2]
  refine ⟨hmain, ?_⟩
  intro doc system_node si v hloc hv h1 h2
  rcases hloc with hfind | ⟨hfind, rfl⟩ <;>
    simp [SystemInfoReader.Parse, hfind, hmain _ si v hv h1 h2]

/-- C3 amended witness: the amended theorem applied to the concrete
document `{"version": 99}`. -/
theorem C3_amended_unknown_version_fails_witness :
    SystemInfoReader.Parse (some (.obj [("version", .unum 99)])) defaultSystemInfo =
      some (false, { defaultSystemInfo with version := ⟨99, 0, 0, 0⟩ }) :=
  C3_amended_unknown_version_fails.2 (.obj [("version", .unum 99)])
    (.obj [("version", .unum 99)]) defaultSystemInfo ⟨99, 0, 0, 0⟩
    (.inr ⟨rfl, rfl⟩) rfl (by norm_num) (by norm_num)

/- Frame lemmas: each guarded field block of the V1/V2 strategies touches
only its own field of the record, and leaves it alone when the guarding
node is absent. -/

lemma stepDevDriver_frame (node : Json) (si si' : SystemInfo)
    (h : stepDevDriver node si = some si') :
    si'.version = si.version ∧ si'.driver = si.driver ∧ si'.os = si.os ∧
      si'.cpus = si.cpus ∧ si'.gpus = si.gpus ∧ si'.processes = si.processes ∧
      (node.find kNodeStringDevDriver = none → si' = si) := by
  unfold stepDevDriver at h
  cases hfind : node.find kNodeStringDevDriver with
  | none =>
    rw [hfind] at h
    replace h : some si = some si' := h
    cases h
    simp
  | some n =>
    rw [hfind] at h
    replace h : (ProcessDevDriverNode n si.devdriver).bind
        (fun d => some { si with devdriver := d }) = some si' := h
    cases hp : ProcessDevDriverNode n si.devdriver with
    | none => rw [hp] at h; cases h
    | some d =>
      rw [hp] at h
      simp only [Option.some_bind] at h
      cases h
      simp

lemma stepDriver_frame (node : Json) (si si' : SystemInfo)
    (h : stepDriver node si = some si') :
    si'.version = si.version ∧ si'.devdriver = si.devdriver ∧ si'.os = si.os ∧
      si'.cpus = si.cpus ∧ si'.gpus = si.gpus ∧ si'.processes = si.processes ∧
      (node.find kNodeStringDriver = none → si' = si) := by
  unfold stepDriver at h
  cases hfind : node.find kNodeStringDriver with
  | none =>
    rw [hfind] at h
    replace h : some si = some si' := h
    cases h
    simp
  | some n =>
    rw [hfind] at h
    replace h : (ProcessDriverNode n si.driver).bind
        (fun d => some { si with driver := d }) = some si' := h
    cases hp : ProcessDriverNode n si.driver with
    | none => rw [hp] at h; cases h
    | some d =>
      rw [hp] at h
      simp only [Option.some_bind] at h
      cases h
      simp

lemma stepOs_frame (node : Json) (si si' : SystemInfo)
    (h : stepOs node si = some si') :
    si'.version = si.version ∧ si'.driver = si.driver ∧
      si'.devdriver = si.devdriver ∧ si'.cpus = si.cpus ∧ si'.gpus = si.gpus ∧
      si'.processes = si.processes ∧
      (node.find kNodeStringOs = none → si' = si) := by
  unfold stepOs at h
  cases hfind : node.find kNodeStringOs with
  | none =>
    rw [hfind] at h
    replace h : some si = some si' := h
    cases h
    simp
  | some n =>
    rw [hfind] at h
    replace h : (ProcessOsNode n si.os).bind
        (fun o => some { si with os := o }) = some si' := h
    cases hp : ProcessOsNode n si.os with
    | none => rw [hp] at h; cases h
    | some o =>
      rw [hp] at h
      simp only [Option.some_bind] at h
      cases h
      simp

lemma ProcessCpusNodeAux_append : ∀ (nodes : List Json) (acc res : List CpuInfo),
    ProcessCpusNodeAux nodes acc = some res → ∃ new, res = acc ++ new := by
  intro nodes
  induction nodes with
  | nil =>
    intro acc res h
    cases h
    exact ⟨[], by simp⟩
  | cons node rest ih =>
    intro acc res h
    unfold ProcessCpusNodeAux at h
    cases hc : processOneCpuNode node with
    | none => rw [hc] at h; cases h
    | some cpu =>
      rw [hc] at h
      simp only [Option.bind_eq_bind', Option.some_bind] at h
      obtain ⟨new, rfl⟩ := ih (acc ++ [cpu]) res h
      exact ⟨[cpu] ++ new, by simp⟩

lemma ProcessGpusNodesAux_append : ∀ (nodes : List Json) (acc res : List GpuInfo),
    ProcessGpusNodesAux nodes acc = some res → ∃ new, res = acc ++ new := by
  intro nodes
  induction nodes with
  | nil =>
    intro acc res h
    cases h
    exact ⟨[], by simp⟩
  | cons node rest ih =>
    intro acc res h
    unfold ProcessGpusNodesAux at h
    cases hc : processOneGpuNode node with
    | none => rw [hc] at h; cases h
    | some gpu =>
      rw [hc] at h
      simp only [Option.bind_eq_bind', Option.some_bind] at h
      obtain ⟨new, rfl⟩ := ih (acc ++ [gpu]) res h
      exact ⟨[gpu] ++ new, by simp⟩

lemma ProcessProcessListNodeAux_append :
    ∀ (nodes : List Json) (acc res : List Process),
    ProcessProcessListNodeAux nodes acc = some res → ∃ new, res = acc ++ new := by
  intro nodes
  induction nodes with
  | nil =>
    intro acc res h
    cases h
    exact ⟨[], by simp⟩
  | cons node rest ih =>
    intro acc res h
    unfold ProcessProcessListNodeAux at h
    cases hc : processOneProcessNode node with
    | none => rw [hc] at h; cases h
    | some p =>
      rw [hc] at h
      simp only [Option.bind_eq_bind', Option.some_bind] at h
      obtain ⟨new, rfl⟩ := ih (acc ++ [p]) res h
      exact ⟨[p] ++ new, by simp⟩

lemma stepCpus_frame (node : Json) (si si' : SystemInfo)
    (h : stepCpus node si = some si') :
    si'.version = si.version ∧ si'.driver = si.driver ∧
      si'.devdriver = si.devdriver ∧ si'.os = si.os ∧ si'.gpus = si.gpus ∧
      si'.processes = si.processes ∧ (∃ new, si'.cpus = si.cpus ++ new) ∧
      (node.find kNodeStringCpus = none → si' = si) := by
  unfold stepCpus at h
  cases hfind : node.find kNodeStringCpus with
  | none =>
    rw [hfind] at h
    replace h : some si = some si' := h
    cases h
    exact ⟨rfl, rfl, rfl, rfl, rfl, rfl, ⟨[], by simp⟩, fun _ => rfl⟩
  | some n =>
    rw [hfind] at h
    replace h : (ProcessCpusNode n si.cpus).bind
        (fun cs => some { si with cpus := cs }) = some si' := h
    cases hp : ProcessCpusNode n si.cpus with
    | none => rw [hp] at h; cases h
    | some cs =>
      rw [hp] at h
      simp only [Option.some_bind] at h
      cases h
      have hp' : ProcessCpusNodeAux n.iterVals si.cpus = some cs := hp
      obtain ⟨new, hnew⟩ := ProcessCpusNodeAux_append _ _ _ hp'
      exact ⟨rfl, rfl, rfl, rfl, rfl, rfl, ⟨new, hnew⟩, by simp⟩

lemma stepGpus_frame (node : Json) (si si' : SystemInfo)
    (h : stepGpus node si = some si') :
    si'.version = si.version ∧ si'.driver = si.driver ∧
      si'.devdriver = si.devdriver ∧ si'.os = si.os ∧ si'.cpus = si.cpus ∧
      si'.processes = si.processes ∧ (∃ new, si'.gpus = si.gpus ++ new) ∧
      (node.find kNodeStringGpus = none → si' = si) := by
  unfold stepGpus at h
  cases hfind : node.find kNodeStringGpus with
  | none =>
    rw [hfind] at h
    replace h : some si = some si' := h
    cases h
    exact ⟨rfl, rfl, rfl, rfl, rfl, rfl, ⟨[], by simp⟩, fun _ => rfl⟩
  | some n =>
    rw [hfind] at h
    replace h : (ProcessGpusNodes n si.gpus).bind
        (fun gs => some { si with gpus := gs }) = some si' := h
    cases hp : ProcessGpusNodes n si.gpus with
    | none => rw [hp] at h; cases h
    | some gs =>
      rw [hp] at h
      simp only [Option.some_bind] at h
      cases h
      have hp' : ProcessGpusNodesAux n.iterVals si.gpus = some gs := hp
      obtain ⟨new, hnew⟩ := ProcessGpusNodesAux_append _ _ _ hp'
      exact ⟨rfl, rfl, rfl, rfl, rfl, rfl, ⟨new, hnew⟩, by simp⟩

lemma stepProcesses_frame (node : Json) (si si' : SystemInfo)
    (h : stepProcesses node si = some si') :
    si'.version = si.version ∧ si'.driver = si.driver ∧
      si'.devdriver = si.devdriver ∧ si'.os = si.os ∧ si'.cpus = si.cpus ∧
      si'.gpus = si.gpus ∧ (∃ new, si'.processes = si.processes ++ new) ∧
      (node.find kNodeStringProcesses = none → si' = si) := by
  unfold stepProcesses at h
  cases hfind : node.find kNodeStringProcesses with
  | none =>
    rw [hfind] at h
    replace h : some si = some si' := h
    cases h
    exact ⟨rfl, rfl, rfl, rfl, rfl, rfl, ⟨[], by simp⟩, fun _ => rfl⟩
  | some n =>
    rw [hfind] at h
    replace h : (ProcessProcessListNode n si.processes).bind
        (fun ps => some { si with processes := ps }) = some si' := h
    cases hp : ProcessProcessListNode n si.processes with
    | none => rw [hp] at h; cases h
    | some ps =>
      rw [hp] at h
      simp only [Option.some_bind] at h
      cases h
      have hp' : ProcessProcessListNodeAux n.iterVals si.processes = some ps := hp
      obtain ⟨new, hnew⟩ := ProcessProcessListNodeAux_append _ _ _ hp'
      exact ⟨rfl, rfl, rfl, rfl, rfl, rfl, ⟨new, hnew⟩, by simp⟩

lemma V1_decompose (node : Json) (si si1 : SystemInfo)
    (h : ProcessSystemValueNodeV1 node si = some si1) :
    ∃ a b c d, stepDevDriver node si = some a ∧ stepDriver node a = some b ∧
      stepOs node b = some c ∧ stepCpus node c = some d ∧
      stepGpus node d = some si1 := by
  unfold ProcessSystemValueNodeV1 at h
  cases h1 : stepDevDriver node si with
  | none => rw [h1] at h; cases h
  | some a =>
    rw [h1] at h
    simp only [Option.bind_eq_bind', Option.some_bind] at h
    cases h2 : stepDriver node a with
    | none => rw [h2] at h; cases h
    | some b =>
      rw [h2] at h
      simp only [Option.bind_eq_bind', Option.some_bind] at h
      cases h3 : stepOs node b with
      | none => rw [h3] at h; cases h
      | some c =>
        rw [h3] at h
        simp only [Option.some_bind] at h
        cases h4 : stepCpus node c with
        | none => rw [h4] at h; cases h
        | some d =>
          rw [h4] at h
          simp only [Option.bind_eq_bind', Option.some_bind] at h
          exact ⟨a, b, c, d, rfl, h2, h3, h4, h⟩

lemma V1_processes_frame (node : Json) (si si1 : SystemInfo)
    (h : ProcessSystemValueNodeV1 node si = some si1) :
    si1.processes = si.processes := by
  obtain ⟨a, b, c, d, h1, h2, h3, h4, h5⟩ := V1_decompose node si si1 h
  rw [(stepGpus_frame node d si1 h5).2.2.2.2.2.1,
    (stepCpus_frame node c d h4).2.2.2.2.2.1,
    (stepOs_frame node b c h3).2.2.2.2.2.1,
    (stepDriver_frame node a b h2).2.2.2.2.2.1,
    (stepDevDriver_frame node si a h1).2.2.2.2.2.1]

/-- C5: the V2 strategy first performs exactly the V1 top-level population
and then additionally populates the process list if present, never
overriding a V1-populated field: V1 never touches the process list; when
the `"processes"` node is absent V2 coincides with V1 exactly; and
whenever both succeed, the V2 result agrees with the V1 result on every
field other than the process list. -/
theorem C5_v2_additive_over_v1 :
    (∀ (node : Json) (si si1 : SystemInfo),
      ProcessSystemValueNodeV1 node si = some si1 → si1.processes = si.processes) ∧
    (∀ (node : Json) (si : SystemInfo), node.find kNodeStringProcesses = none →
      ProcessSystemValueNodeV2 node si = ProcessSystemValueNodeV1 node si) ∧
    (∀ (node : Json) (si si1 si2 : SystemInfo),
      ProcessSystemValueNodeV1 node si = some si1 →
      ProcessSystemValueNodeV2 node si = some si2 →
      si2.version = si1.version ∧ si2.driver = si1.driver ∧
        si2.devdriver = si1.devdriver ∧ si2.os = si1.os ∧
        si2.cpus = si1.cpus ∧ si2.gpus = si1.gpus) := by
  refine ⟨V1_processes_frame, ?_, ?_⟩
  · intro node si hfind
    unfold ProcessSystemValueNodeV2
    cases h1 : ProcessSystemValueNodeV1 node si with
    | none => rfl
    | some s =>
      simp only [Option.bind_eq_bind', Option.some_bind]
      unfold stepProcesses
      rw [hfind]
      exact rfl
  · intro node si si1 si2 h1 h2
    unfold ProcessSystemValueNodeV2 at h2
    rw [h1] at h2
    simp only [Option.bind_eq_bind', Option.some_bind] at h2
    obtain ⟨hv, hd, hdd, ho, hc, hg, _, _⟩ := stepProcesses_frame node si1 si2 h2
    exact ⟨hv, hd, hdd, ho, hc, hg⟩

/-- C5 witness: the theorem applied to a concrete version-2 document body
with the `"processes"` field removed — V2 decodes it identically to V1,
and the process list stays empty. -/
theorem C5_v2_additive_over_v1_witness :
    (ProcessSystemValueNodeV2 (.obj [("version", .unum 2)]) defaultSystemInfo =
      ProcessSystemValueNodeV1 (.obj [("version", .unum 2)]) defaultSystemInfo) ∧
    defaultSystemInfo.processes = defaultSystemInfo.processes :=
  ⟨C5_v2_additive_over_v1.2.1 (.obj [("version", .unum 2)]) defaultSystemInfo rfl,
   C5_v2_additive_over_v1.1 (.obj [("version", .unum 2)]) defaultSystemInfo
     defaultSystemInfo rfl⟩

lemma V1_frame (node : Json) (si si1 : SystemInfo)
    (h : ProcessSystemValueNodeV1 node si = some si1) :
    si1.version = si.version ∧
      (∃ cs, si1.cpus = si.cpus ++ cs) ∧ (∃ gs, si1.gpus = si.gpus ++ gs) ∧
      si1.processes = si.processes ∧
      (node.find kNodeStringDriver = none → si1.driver = si.driver) ∧
      (node.find kNodeStringDevDriver = none → si1.devdriver = si.devdriver) ∧
      (node.find kNodeStringOs = none → si1.os = si.os) ∧
      (node.find kNodeStringCpus = none → si1.cpus = si.cpus) ∧
      (node.find kNodeStringGpus = none → si1.gpus = si.gpus) := by
  obtain ⟨a, b, c, d, h1, h2, h3, h4, h5⟩ := V1_decompose node si si1 h
  obtain ⟨f1v, f1d, f1o, f1c, f1g, f1p, f1abs⟩ := stepDevDriver_frame node si a h1
  obtain ⟨f2v, f2dd, f2o, f2c, f2g, f2p, f2abs⟩ := stepDriver_frame node a b h2
  obtain ⟨f3v, f3d, f3dd, f3c, f3g, f3p, f3abs⟩ := stepOs_frame node b c h3
  obtain ⟨f4v, f4d, f4dd, f4o, f4g, f4p, ⟨cs, f4app⟩, f4abs⟩ := stepCpus_frame node c d h4
  obtain ⟨f5v, f5d, f5dd, f5o, f5c, f5p, ⟨gs, f5app⟩, f5abs⟩ := stepGpus_frame node d si1 h5
  refine ⟨by rw [f5v, f4v, f3v, f2v, f1v], ⟨cs, ?_⟩, ⟨gs, ?_⟩,
    by rw [f5p, f4p, f3p, f2p, f1p], ?_, ?_, ?_, ?_, ?_⟩
  · rw [f5c, f4app, f3c, f2c, f1c]
  · rw [f5app, f4g, f3g, f2g, f1g]
  · intro habs
    rw [f5d, f4d, f3d, f2abs habs, f1d]
  · intro habs
    rw [f5dd, f4dd, f3dd, f2dd, f1abs habs]
  · intro habs
    rw [f5o, f4o, f3abs habs, f2o, f1o]
  · intro habs
    rw [f5c, f4abs habs, f3c, f2c, f1c]
  · intro habs
    rw [f5abs habs, f4g, f3g, f2g, f1g]

lemma V2_frame (node : Json) (si si2 : SystemInfo)
    (h : ProcessSystemValueNodeV2 node si = some si2) :
    si2.version = si.version ∧
      (∃ cs, si2.cpus = si.cpus ++ cs) ∧ (∃ gs, si2.gpus = si.gpus ++ gs) ∧
      (∃ ps, si2.processes = si.processes ++ ps) ∧
      (node.find kNodeStringDriver = none → si2.driver = si.driver) ∧
      (node.find kNodeStringDevDriver = none → si2.devdriver = si.devdriver) ∧
      (node.find kNodeStringOs = none → si2.os = si.os) ∧
      (node.find kNodeStringCpus = none → si2.cpus = si.cpus) ∧
      (node.find kNodeStringGpus = none → si2.gpus = si.gpus) ∧
      (node.find kNodeStringProcesses = none → si2.processes = si.processes) := by
  unfold ProcessSystemValueNodeV2 at h
  cases h1 : ProcessSystemValueNodeV1 node si with
  | none => rw [h1] at h; cases h
  | some s1 =>
    rw [h1] at h
    simp only [Option.bind_eq_bind', Option.some_bind] at h
    obtain ⟨g1v, g1c, g1g, g1p, g1d, g1dd, g1o, g1cabs, g1gabs⟩ := V1_frame node si s1 h1
    obtain ⟨f6v, f6d, f6dd, f6o, f6c, f6g, ⟨ps, f6app⟩, f6abs⟩ := stepProcesses_frame node s1 si2 h
    obtain ⟨cs, g1capp⟩ := g1c
    obtain ⟨gs, g1gapp⟩ := g1g
    refine ⟨by rw [f6v, g1v], ⟨cs, by rw [f6c, g1capp]⟩, ⟨gs, by rw [f6g, g1gapp]⟩,
      ⟨ps, by rw [f6app, g1p]⟩, ?_, ?_, ?_, ?_, ?_, ?_⟩
    · intro habs
      rw [f6d, g1d habs]
    · intro habs
      rw [f6dd, g1dd habs]
    · intro habs
      rw [f6o, g1o habs]
    · intro habs
      rw [f6c, g1cabs habs]
    · intro habs
      rw [f6g, g1gabs habs]
    · intro habs
      rw [f6abs habs, g1p]

/-- C9 counterexample: decoding the empty document `\x7b\x7d` into a record whose
version field holds the non-default prior value `major = 5` succeeds, but
the result's `version.major` has been recomputed to the default 1 rather
than keeping the prior value — the version subtree is absent yet its
record field does not keep its prior value. -/
theorem C9_counterexample :
    SystemInfoReader.Parse (some (.obj []))
        { defaultSystemInfo with version := ⟨5, 0, 0, 0⟩ } =
      some (true, { defaultSystemInfo with version := ⟨1, 0, 0, 0⟩ }) ∧
    (Version.mk 1 0 0 0).major ≠ (Version.mk 5 0 0 0).major :=
  ⟨rfl, by norm_num⟩

/-- C9 amended: the decode-to-record operation never resets the
caller-supplied record: the cpu, gpu and process lists are appended to
whatever entries the record already holds, and the driver, devdriver, os,
cpu, gpu and process fields keep their prior values when their subtrees
are absent from the document — except the version field, which is always
recomputed from the document (with its documented defaults). -/
theorem C9_amended_no_reset_lists_append :
    (∀ (node : Json) (si : SystemInfo) (b : Bool) (si' : SystemInfo),
      ProcessSystemNode node si = some (b, si') →
      (∃ v, readVersion node si.version = some v ∧ si'.version = v) ∧
      (∃ cs, si'.cpus = si.cpus ++ cs) ∧
      (∃ gs, si'.gpus = si.gpus ++ gs) ∧
      (∃ ps, si'.processes = si.processes ++ ps) ∧
      (node.find kNodeStringDriver = none → si'.driver = si.driver) ∧
      (node.find kNodeStringDevDriver = none → si'.devdriver = si.devdriver) ∧
      (node.find kNodeStringOs = none → si'.os = si.os) ∧
      (node.find kNodeStringCpus = none → si'.cpus = si.cpus) ∧
      (node.find kNodeStringGpus = none → si'.gpus = si.gpus) ∧
      (node.find kNodeStringProcesses = none → si'.processes = si.processes)) ∧
    (∀ (doc : Json) (si : SystemInfo) (b : Bool) (si' : SystemInfo),
      SystemInfoReader.Parse (some doc) si = some (b, si') →
      (∃ cs, si'.cpus = si.cpus ++ cs) ∧
      (∃ gs, si'.gpus = si.gpus ++ gs) ∧
      (∃ ps, si'.processes = si.processes ++ ps)) := by
  have hmain : ∀ (node : Json) (si : SystemInfo) (b : Bool) (si' : SystemInfo),
      ProcessSystemNode node si = some (b, si') →
      (∃ v, readVersion node si.version = some v ∧ si'.version = v) ∧
      (∃ cs, si'.cpus = si.cpus ++ cs) ∧
      (∃ gs, si'.gpus = si.gpus ++ gs) ∧
      (∃ ps, si'.processes = si.processes ++ ps) ∧
      (node.find kNodeStringDriver = none → si'.driver = si.driver) ∧
      (node.find kNodeStringDevDriver = none → si'.devdriver = si.devdriver) ∧
      (node.find kNodeStringOs = none → si'.os = si.os) ∧
      (node.find kNodeStringCpus = none → si'.cpus = si.cpus) ∧
      (node.find kNodeStringGpus = none → si'.gpus = si.gpus) ∧
      (node.find kNodeStringProcesses = none → si'.processes = si.processes) := by
    intro node si b si' h
    unfold ProcessSystemNode at h
    cases hrv : readVersion node si.version with
    | none => rw [hrv] at h; cases h
    | some ver =>
      rw [hrv] at h
      simp only [Option.bind_eq_bind', Option.some_bind] at h
      replace h : (match CreateSystemInfoParser ver.major with
          | some parser =>
            (runParser parser node { si with version := ver }).bind
              (fun s2 => some (true, s2))
          | none => some (false, { si with version := ver })) = some (b, si') := h
      cases hcp : CreateSystemInfoParser ver.major with
      | none =>
        rw [hcp] at h
        replace h : some ((false : Bool), { si with version := ver }) = some (b, si') := h
        cases h
        exact ⟨⟨ver, rfl, rfl⟩, ⟨[], by simp⟩, ⟨[], by simp⟩, ⟨[], by simp⟩,
          fun _ => rfl, fun _ => rfl, fun _ => rfl, fun _ => rfl, fun _ => rfl, fun _ => rfl⟩
      | some parser =>
        rw [hcp] at h
        replace h : (runParser parser node { si with version := ver }).bind
            (fun s2 => some ((true : Bool), s2)) = some (b, si') := h
        cases hrun : runParser parser node { si with version := ver } with
        | none => rw [hrun] at h; cases h
        | some s2 =>
          rw [hrun] at h
          simp only [Option.some_bind] at h
          cases h
          cases parser with
          | v1 =>
            obtain ⟨gv, gc, gg, gp, gd, gdd, go, gcabs, ggabs⟩ :=
              V1_frame node { si with version := ver } si' hrun
            exact ⟨⟨ver, rfl, gv⟩, gc, gg, ⟨[], by rw [gp]; simp⟩,
              gd, gdd, go, gcabs, ggabs, fun _ => by rw [gp]⟩
          | v2 =>
            obtain ⟨gv, gc, gg, gp, gd, gdd, go, gcabs, ggabs, gpabs⟩ :=
              V2_frame node { si with version := ver } si' hrun
            exact ⟨⟨ver, rfl, gv⟩, gc, gg, gp, gd, gdd, go, gcabs, ggabs, gpabs⟩
  refine ⟨hmain, ?_⟩
  intro doc si b si' h
  unfold SystemInfoReader.Parse at h
  replace h : (match doc.find kNodeStringSystem with
    | some system_node => ProcessSystemNode system_node si
    | none => ProcessSystemNode doc si) = some (b, si') := h
  cases hfind : doc.find kNodeStringSystem with
  | none =>
    rw [hfind] at h
    obtain ⟨_, hc, hg, hp, _⟩ := hmain doc si b si' h
    exact ⟨hc, hg, hp⟩
  | some system_node =>
    rw [hfind] at h
    obtain ⟨_, hc, hg, hp, _⟩ := hmain system_node si b si' h
    exact ⟨hc, hg, hp⟩

/-- C9 amended witness: the amended theorem applied to the concrete
document `\x7b"cpus":[\x7b\x7d]\x7d` decoded into a record that already holds one CPU
entry: the decoded CPU list extends the prior one. -/
theorem C9_amended_no_reset_lists_append_witness :
    ∃ cs, (SystemInfoReader.Parse (some (.obj [("cpus", .arr [.obj []])]))
        { defaultSystemInfo with cpus := [defaultCpuInfo] }).map
        (fun r => r.2.cpus) = some ([defaultCpuInfo] ++ cs) := by
  obtain ⟨cs, hcs⟩ :=
    (C9_amended_no_reset_lists_append.2 (.obj [("cpus", .arr [.obj []])])
      { defaultSystemInfo with cpus := [defaultCpuInfo] } true
      { defaultSystemInfo with
        cpus := [defaultCpuInfo, defaultCpuInfo],
        version := ⟨1, 0, 0, 0⟩ } rfl).1
  refine ⟨cs, ?_⟩
  rw [show (SystemInfoReader.Parse (some (.obj [("cpus", .arr [.obj []])]))
      { defaultSystemInfo with cpus := [defaultCpuInfo] }) =
      some (true,
        { defaultSystemInfo with
          cpus := [defaultCpuInfo, defaultCpuInfo],
          version := ⟨1, 0, 0, 0⟩ }) from rfl, Option.map_some', hcs]

/-- The maximal run of digits immediately following the first `.` (at
index `first`) of a packaging-version string, as the spec words it. -/
def minorDigitRun (pv : String) (first : Nat) : List Char :=
  (pv.toList.drop (first + 1)).takeWhile isDigitChar

lemma findIdx_notDigit_eq (ds : List Char) :
    ds.findIdx? (fun c => !isDigitChar c) =
      if (ds.takeWhile isDigitChar).length < ds.length
      then some (ds.takeWhile isDigitChar).length else none := by
  induction ds with
  | nil => simp
  | cons c rest ih =>
    by_cases hc : isDigitChar c = true
    · rw [List.takeWhile_cons_of_pos hc, List.findIdx?_cons, if_neg (by simp [hc]),
        List.findIdx?_start_succ, ih]
      by_cases hlt : (rest.takeWhile isDigitChar).length < rest.length
      · rw [if_pos hlt, if_pos (by simp only [List.length_cons]; omega)]
        simp [Nat.add_comm]
      · rw [if_neg hlt, if_neg (by simp only [List.length_cons]; omega)]
        rfl
    · have hc' : isDigitChar c = false := by simpa using hc
      rw [List.takeWhile_cons_of_neg (by simp [hc']), List.findIdx?_cons,
        if_pos (by simp [hc']), if_pos (by simp)]
      simp

lemma findFirstNotOfDigits_eq (pv : String) (rest : Nat) :
    findFirstNotOfDigits pv rest =
      if ((pv.toList.drop rest).takeWhile isDigitChar).length <
          (pv.toList.drop rest).length
      then some (rest + ((pv.toList.drop rest).takeWhile isDigitChar).length)
      else none := by
  unfold findFirstNotOfDigits
  rw [findIdx_notDigit_eq]
  by_cases hlt : ((pv.toList.drop rest).takeWhile isDigitChar).length <
      (pv.toList.drop rest).length
  · rw [if_pos hlt, if_pos hlt]
  · rw [if_neg hlt, if_neg hlt]

lemma isSpaceChar_of_digit {c : Char} (h : isDigitChar c = true) :
    isSpaceChar c = false := by
  simp only [isDigitChar, Bool.and_eq_true, decide_eq_true_eq] at h
  simp only [isSpaceChar, Bool.or_eq_false_iff, Bool.and_eq_false_iff,
    beq_eq_false_iff_ne, ne_eq, decide_eq_false_iff_not, not_le]
  exact ⟨by omega, Or.inr (by omega)⟩

lemma atoi_all_digits (cs : List Char) (h : ∀ c ∈ cs, isDigitChar c = true) :
    atoi cs.asString = Int.ofNat (digitsVal cs) := by
  unfold atoi
  rw [List.toList_asString]
  cases cs with
  | nil => rfl
  | cons c rest =>
    have hc := h c (List.mem_cons_self c rest)
    rw [List.dropWhile_cons, if_neg (by simp [isSpaceChar_of_digit hc])]
    simp only [atoiAfterSpace]
    have hdash : ¬ c = '-' := by
      intro e
      subst e
      exact absurd hc (by decide)
    have hplus : ¬ c = '+' := by
      intro e
      subst e
      exact absurd hc (by decide)
    rw [if_neg hdash, if_neg hplus, List.takeWhile_eq_self_iff.mpr h]

lemma take_takeWhile_length (ds : List Char) (p : Char → Bool) :
    ds.take (ds.takeWhile p).length = ds.takeWhile p :=
  (List.prefix_iff_eq_take.mp (List.takeWhile_prefix p)).symm

lemma parseDriverPackagingMajorMinor_minor (driver : DriverInfo) (first : Nat)
    (hdot : findFirstOf driver.packaging_version '.' = some first) :
    (first + 1 + (minorDigitRun driver.packaging_version first).length <
        driver.packaging_version.toList.length →
      (parseDriverPackagingMajorMinor driver).packaging_version_minor =
        ((Int.ofNat (digitsVal (minorDigitRun driver.packaging_version first))) %
          ((2 : Int) ^ 32)).toNat) ∧
    (driver.packaging_version.toList.length ≤
        first + 1 + (minorDigitRun driver.packaging_version first).length →
      (parseDriverPackagingMajorMinor driver).packaging_version_minor =
        driver.packaging_version_minor) := by
  have hne : ¬ driver.packaging_version = "" := by
    intro he
    rw [he] at hdot
    exact Option.noConfusion hdot
  have hdroplen : (driver.packaging_version.toList.drop (first + 1)).length =
      driver.packaging_version.toList.length - (first + 1) := by
    simp [List.length_drop]
  have heq := findFirstNotOfDigits_eq driver.packaging_version (first + 1)
  cases hfn : findFirstNotOfDigits driver.packaging_version (first + 1) with
  | none =>
    rw [hfn] at heq
    have hcond : ¬ (((driver.packaging_version.toList.drop (first + 1)).takeWhile
        isDigitChar).length < (driver.packaging_version.toList.drop (first + 1)).length) := by
      intro hcond
      rw [if_pos hcond] at heq
      exact Option.noConfusion heq
    constructor
    · intro hlt2
      exfalso
      simp only [minorDigitRun] at hlt2
      omega
    · intro _
      simp only [parseDriverPackagingMajorMinor, if_neg hne, hdot, hfn]
  | some next =>
    rw [hfn] at heq
    have hcond : (((driver.packaging_version.toList.drop (first + 1)).takeWhile
          isDigitChar).length < (driver.packaging_version.toList.drop (first + 1)).length) ∧
        next = first + 1 + ((driver.packaging_version.toList.drop (first + 1)).takeWhile
          isDigitChar).length := by
      by_cases hcond : (((driver.packaging_version.toList.drop (first + 1)).takeWhile
          isDigitChar).length < (driver.packaging_version.toList.drop (first + 1)).length)
      · rw [if_pos hcond] at heq
        exact ⟨hcond, Option.some.inj heq⟩
      · rw [if_neg hcond] at heq
        exact Option.noConfusion heq
    obtain ⟨hcond, rfl⟩ := hcond
    constructor
    · intro _
      simp only [parseDriverPackagingMajorMinor, if_neg hne, hdot, hfn]
      rw [Nat.add_sub_cancel_left]
      unfold substrPos
      rw [take_takeWhile_length, atoi_all_digits _ (fun c hc => List.mem_takeWhile_imp hc)]
      rfl
    · intro hge
      exfalso
      simp only [minorDigitRun] at hge
      omega

lemma toNat_ofNat_emod_pow32 (v : Nat) (h : v < 2 ^ 32) :
    ((Int.ofNat v) % ((2 : Int) ^ 32)).toNat = v := by
  have h1 : ((v : Int) % ((4294967296 : Nat) : Int)) = ((v % 4294967296 : Nat) : Int) := by
    norm_cast
  rw [show ((2 : Int) ^ 32) = ((4294967296 : Nat) : Int) by norm_num,
    show (Int.ofNat v) = ((v : Nat) : Int) from rfl, h1, Int.toNat_natCast]
  omega

lemma ProcessDriverNode_via_parse (node : Json) (d0 d : DriverInfo) (pv : String)
    (hpv : node.find kNodeStringDriverPackagingVersion = some (.jstr pv))
    (h : ProcessDriverNode node d0 = some d) :
    ∃ dmid : DriverInfo, d = parseDriverPackagingMajorMinor dmid ∧
      dmid.packaging_version = pv ∧
      dmid.packaging_version_minor = d0.packaging_version_minor ∧
      dmid.packaging_version_major = d0.packaging_version_major := by
  unfold ProcessDriverNode at h
  simp only [Option.bind_eq_bind'] at h
  cases h1 : getStr node kNodeStringName "" with
  | none => rw [h1] at h; cases h
  | some name =>
    rw [h1, Option.some_bind] at h
    cases h2 : getStr node kNodeStringDescription "" with
    | none => rw [h2] at h; cases h
    | some description =>
      rw [h2, Option.some_bind] at h
      cases h3 : getStr node kNodeStringDriverSoftwareVersion "" with
      | none => rw [h3] at h; cases h
      | some software_version =>
        rw [h3, Option.some_bind] at h
        have h4 : getStr node kNodeStringDriverPackagingVersion "" = some pv := by
          rw [getStr, hpv]
          rfl
        rw [h4, Option.some_bind] at h
        cases h5 : getBool node kNodeStringIsClosedSource false with
        | none => rw [h5] at h; cases h
        | some is_closed_source =>
          rw [h5, Option.some_bind] at h
          replace h : some (parseDriverPackagingMajorMinor { d0 with
            name := name, description := description
            software_version := software_version
            packaging_version := pv
            is_closed_source := is_closed_source }) = some d := h
          cases h
          exact ⟨_, rfl, rfl, rfl, rfl⟩

/-- C1 counterexample: the driver node with packaging version `"23.40"`
(whose first `.` is followed by digits running to the end of the string)
yields a derived packaging minor of 0, not 40 — `find_first_not_of`
returns npos, so the function returns before assigning the minor. -/
theorem C1_counterexample :
    (ProcessDriverNode (.obj [(kNodeStringDriverPackagingVersion, .jstr "23.40")])
        defaultDriverInfo).map
      (fun d => (d.packaging_version_major, d.packaging_version_minor)) =
      some (23, 0) ∧
    (ProcessDriverNode (.obj [(kNodeStringDriverPackagingVersion, .jstr "23.40")])
        defaultDriverInfo).map
      (fun d => (d.packaging_version_major, d.packaging_version_minor)) ≠
      some (23, 40) := by
  constructor
  · rfl
  · intro hc
    rw [show (ProcessDriverNode
        (.obj [(kNodeStringDriverPackagingVersion, .jstr "23.40")])
        defaultDriverInfo).map
        (fun d => (d.packaging_version_major, d.packaging_version_minor)) =
        some ((23 : Nat), (0 : Nat)) from rfl] at hc
    have := Option.some.inj hc
    simp at this

/-- C1 amended: for every driver node whose packaging-version string
contains a `.`, the derived packaging minor equals the maximal run of
digits immediately following the first `.` PROVIDED that run stops at a
non-digit before the end of the string; when no digits follow the `.` or
the digits run all the way to the end of the string (as in `"23.40"`),
the minor stays at its prior (zero-default) value.  In particular
`"23.40.12"` yields major 23 and minor 40, `"23"` yields the 0/0 defaults,
`"23."` yields 23/0, and `"23.40"` yields 23/0 (not minor = 40). -/
theorem C1_amended_minor_parse :
    (∀ (node : Json) (d0 d : DriverInfo) (pv : String) (first : Nat),
      node.find kNodeStringDriverPackagingVersion = some (.jstr pv) →
      ProcessDriverNode node d0 = some d →
      findFirstOf pv '.' = some first →
      ((first + 1 + (minorDigitRun pv first).length < pv.toList.length →
          digitsVal (minorDigitRun pv first) < 2 ^ 31 →
          d.packaging_version_minor = digitsVal (minorDigitRun pv first)) ∧
        (pv.toList.length ≤ first + 1 + (minorDigitRun pv first).length →
          d.packaging_version_minor = d0.packaging_version_minor))) ∧
    (ProcessDriverNode (.obj [(kNodeStringDriverPackagingVersion, .jstr "23.40.12")])
        defaultDriverInfo).map
      (fun d => (d.packaging_version_major, d.packaging_version_minor)) =
      some (23, 40) ∧
    (ProcessDriverNode (.obj [(kNodeStringDriverPackagingVersion, .jstr "23")])
        defaultDriverInfo).map
      (fun d => (d.packaging_version_major, d.packaging_version_minor)) =
      some (0, 0) ∧
    (ProcessDriverNode (.obj [(kNodeStringDriverPackagingVersion, .jstr "23.")])
        defaultDriverInfo).map
      (fun d => (d.packaging_version_major, d.packaging_version_minor)) =
      some (23, 0) ∧
    (ProcessDriverNode (.obj [(kNodeStringDriverPackagingVersion, .jstr "23.40")])
        defaultDriverInfo).map
      (fun d => (d.packaging_version_major, d.packaging_version_minor)) =
      some (23, 0) := by
  refine ⟨?_, rfl, rfl, rfl, rfl⟩
  intro node d0 d pv first hpv h hdot
  obtain ⟨dmid, rfl, hpveq, hmin, -⟩ := ProcessDriverNode_via_parse node d0 d pv hpv h
  have hspec := parseDriverPackagingMajorMinor_minor dmid first (by rw [hpveq]; exact hdot)
  rw [hpveq] at hspec
  constructor
  · intro hcond hsmall
    rw [hspec.1 hcond]
    exact toNat_ofNat_emod_pow32 _ (lt_trans hsmall (by norm_num))
  · intro hcond
    rw [hspec.2 hcond, hmin]

/-- C1 amended witness: the amended theorem applied to the concrete
packaging version `"23.40.12"` — the run after the first `.` is `"40"`,
it stops at the second `.`, and the derived minor is 40. -/
theorem C1_amended_minor_parse_witness :
    ∃ d, ProcessDriverNode
        (.obj [(kNodeStringDriverPackagingVersion, .jstr "23.40.12")])
        defaultDriverInfo = some d ∧ d.packaging_version_minor = 40 := by
  cases hd : ProcessDriverNode
      (.obj [(kNodeStringDriverPackagingVersion, .jstr "23.40.12")])
      defaultDriverInfo with
  | none => exact absurd hd (by decide)
  | some d =>
    refine ⟨d, rfl, ?_⟩
    have hmain := (C1_amended_minor_parse.1
      (.obj [(kNodeStringDriverPackagingVersion, .jstr "23.40.12")])
      defaultDriverInfo d "23.40.12" 2 rfl hd rfl).1 (by decide) (by decide)
    rw [hmain]
    decide

lemma luidLoop_getD (cs : List Char) :
    ∀ (fuel i : Nat), cs.length - i ≤ 2 * fuel → i % 2 = 0 →
    ∀ (acc : List Nat), acc.length = 8 →
    ∀ j, j < 8 →
    (luidLoop cs fuel i acc).getD j 0 =
      if i ≤ 2 * j ∧ 2 * j < cs.length then
        ((strtol16 ((cs.drop (2 * j)).take 2).asString) % (256 : Int)).toNat
      else acc.getD j 0 := by
  intro fuel
  induction fuel with
  | zero =>
    intro i hfuel hev acc hlen j hj
    rw [show luidLoop cs 0 i acc = acc from rfl, if_neg (by omega)]
  | succ n ih =>
    intro i hfuel hev acc hlen j hj
    by_cases hi : i < cs.length
    · rw [show luidLoop cs (n + 1) i acc = luidLoop cs n (i + 2)
        (acc.set (i / 2)
          (((strtol16 ((cs.drop i).take 2).asString) % (256 : Int)).toNat)) from
        by rw [luidLoop.eq_def]; exact if_pos hi]
      rw [ih (i + 2) (by omega) (by omega) _ (by simp [hlen]) j hj]
      by_cases hcase : i + 2 ≤ 2 * j ∧ 2 * j < cs.length
      · rw [if_pos hcase, if_pos (by omega)]
      · rw [if_neg hcase]
        by_cases hij : j = i / 2
        · subst hij
          have h2j : 2 * (i / 2) = i := by omega
          rw [if_pos (by omega)]
          rw [List.getD_eq_getElem?_getD,
            List.getElem?_set_self (by omega : i / 2 < acc.length), h2j]
          rfl
        · have hne : i / 2 ≠ j := fun e => hij e.symm
          rw [List.getD_eq_getElem?_getD, List.getElem?_set_ne hne,
            ← List.getD_eq_getElem?_getD]
          rw [if_neg (by omega)]
    · rw [show luidLoop cs (n + 1) i acc = acc from
        by rw [luidLoop.eq_def]; exact if_neg hi]
      rw [if_neg (by omega)]

/-- C2 counterexample: the odd-length LUID string `"5"` does NOT decode to
all zero bytes — its trailing half-pair is parsed as the single hex digit
5 and stored at index 0, so the decoded bytes are `[5,0,0,0,0,0,0,0]`. -/
theorem C2_counterexample :
    (ProcessAsicIdInfoNode (.obj [(kNodeStringAsicLuid, .jstr "5")])
        defaultGpuInfo.asic.id_info).map IdInfo.luid =
      some [5, 0, 0, 0, 0, 0, 0, 0] ∧
    "5".toList.length % 2 = 1 ∧
    some [5, 0, 0, 0, 0, 0, 0, 0] ≠ some (List.replicate 8 (0 : Nat)) :=
  ⟨rfl, rfl, by decide⟩

/-- C2 amended: the hex-LUID coercion zero-fills the 8-byte output and,
for every input of length at most 16 (the in-bounds regime, see the LUID
index-bound theorem), stores at each index `j < 8` with `2*j` below the
input length the value `strtol(s.substr(2*j, 2), nullptr, 16)` truncated
to a byte, leaving the remaining bytes zero.  A slice with no valid hex
prefix parses as 0, and the trailing 1-character slice of an odd-length
input is parsed as a single hex digit and stored (NOT dropped), so an
odd-length or non-hex input decodes without error but not necessarily to
all zero bytes.  `"0102030405060708"` decodes to `[1,2,3,4,5,6,7,8]`, and
a string whose every slice parses as 0 (e.g. `"zz"`) decodes to all
zeros. -/
theorem C2_amended_hex_luid :
    (∀ (s : String), s.toList.length ≤ 16 → ∀ j, j < 8 →
      (luidFromString s).getD j 0 =
        if 2 * j < s.toList.length then
          ((strtol16 (substrPos s (2 * j) 2)) % (256 : Int)).toNat
        else 0) ∧
    (ProcessAsicIdInfoNode (.obj [(kNodeStringAsicLuid, .jstr "0102030405060708")])
        defaultGpuInfo.asic.id_info).map IdInfo.luid =
      some [1, 2, 3, 4, 5, 6, 7, 8] ∧
    (ProcessAsicIdInfoNode (.obj [(kNodeStringAsicLuid, .jstr "zz")])
        defaultGpuInfo.asic.id_info).map IdInfo.luid =
      some (List.replicate 8 (0 : Nat)) ∧
    (ProcessAsicIdInfoNode (.obj [(kNodeStringAsicLuid, .jstr "5")])
        defaultGpuInfo.asic.id_info).map IdInfo.luid =
      some [5, 0, 0, 0, 0, 0, 0, 0] := by
  refine ⟨?_, by rfl, by rfl, by rfl⟩
  intro s hlen j hj
  unfold luidFromString
  rw [luidLoop_getD s.toList s.toList.length 0 (by omega) (by omega)
    (List.replicate 8 0) (by simp) j hj]
  by_cases hcase : 2 * j < s.toList.length
  · rw [if_pos (by omega), if_pos hcase]
    rfl
  · rw [if_neg (by omega), if_neg hcase]
    interval_cases j <;> rfl

/-- C2 amended witness: the amended theorem's slice characterization
applied at the concrete input `"0102"` and index 1: byte 1 equals the
value of slice `"02"`. -/
theorem C2_amended_hex_luid_witness :
    (luidFromString "0102").getD 1 0 =
      ((strtol16 (substrPos "0102" 2 2)) % (256 : Int)).toNat := by
  have h := C2_amended_hex_luid.1 "0102" (by decide) 1 (by decide)
  rw [h, if_pos (by decide)]

end system_info_utils
